import Mathlib

/-!
# Retrying HTTP client (`HttpClient::make_request`)

A shallow embedding of `src/src/HttpClient.cpp`, `src/src/HttpUtils.cpp`,
`src/include/HttpClient.h`, `src/include/HttpUtils.h` and
`src/include/ApiException.h`.

* `std::string` is `String`; C++ `int` and `long` values are `Int`, with the
  narrowing `static_cast<int>` written out; the loop counter `attempt` only
  ranges over `0 .. MAX_RETRIES + 1` and is a `Nat`.
* libcurl is outside the repository.  What one `curl_easy_perform` call does
  is an input of the model (`PerformResult`): its return code, the value that
  `CURLINFO_RESPONSE_CODE` reports afterwards, and the chunks it hands to the
  write callback.  The text of `curl_easy_strerror` is an input as well.
* `exponential_backoff` takes the factor that `dis(gen)` draws as an
  argument, a fraction of two integers (`Jitter`); the product with the base
  is taken exactly and truncated toward zero.  Arithmetic on `int` wraps to
  32 bits.  A call is recorded in the trace of `make_request` with its
  argument; `sleep_schedule` turns the recorded calls into sleeps.
* A C++ call either returns or throws, so `make_request` has type
  `Except ApiException Run`; `Run` carries the returned `HttpResponse`
  together with ghost data (attempt count, event trace, exit point, the
  state of the cURL handle).
-/

namespace CppInterviewPrep

/-! ## Constants of `HttpUtils.h` -/

/-- Constant `MAX_RETRIES` of `HttpUtils.h`. -/
def MAX_RETRIES : Nat := 3

/-- Constant `INITIAL_BACKOFF_MS` of `HttpUtils.h`. -/
def INITIAL_BACKOFF_MS : Int := 1000

/-- Constant `MAX_BACKOFF_MS` of `HttpUtils.h`. -/
def MAX_BACKOFF_MS : Int := 10000

/-! ## Data model -/

/-- The libcurl result codes that the source names, with every other code of
the `CURLcode` enumeration under `other`. -/
inductive CURLcode where
  | CURLE_OK
  | CURLE_UNSUPPORTED_PROTOCOL
  | CURLE_URL_MALFORMAT
  | CURLE_COULDNT_RESOLVE_HOST
  | CURLE_COULDNT_CONNECT
  | CURLE_OPERATION_TIMEDOUT
  | CURLE_SSL_CONNECT_ERROR
  | CURLE_GOT_NOTHING
  | CURLE_SEND_ERROR
  | CURLE_RECV_ERROR
  | other (code : Nat)
  deriving DecidableEq

/-- Struct `HttpResponse` of `HttpClient.h`. -/
structure HttpResponse where
  status_code : Int
  body : String
  error_message : String
  success : Bool
  deriving DecidableEq

/-- Default constructor `HttpResponse() : status_code(0), success(false)`; the
two strings are default-constructed, hence empty. -/
def HttpResponse.init : HttpResponse :=
  { status_code := 0, body := "", error_message := "", success := false }

/-- Class `ApiException` of `ApiException.h`: the `what()` text held by the
`std::runtime_error` base and the status code. -/
structure ApiException where
  what : String
  status_code : Int
  deriving DecidableEq

/-- Constructor `ApiException(message, status_code)`. -/
def ApiException.mk2 (message : String) (status_code : Int) : ApiException :=
  { what := message, status_code := status_code }

/-- Constructor `ApiException(message)` with the default `status_code = 0`. -/
def ApiException.mk1 (message : String) : ApiException :=
  ApiException.mk2 message 0

/-- Member `get_status_code()`. -/
def ApiException.get_status_code (e : ApiException) : Int := e.status_code

/-- The options that the source sets on the cURL easy handle; `none` or
`false` is an option this program has not set since the last reset. -/
structure CurlHandle where
  timeout : Option Int
  connecttimeout : Option Int
  followlocation : Option Int
  maxredirs : Option Int
  ssl_verifypeer : Option Int
  ssl_verifyhost : Option Int
  useragent : Option String
  url : Option String
  post : Option Int
  customrequest : Option String
  postfields : Option String
  httpheader : Option (List String)
  writefunction_is_WriteCallback : Bool
  writedata_is_response_body : Bool
  deriving DecidableEq

/-- What one call of `curl_easy_perform` does: the code it returns, the
value `CURLINFO_RESPONSE_CODE` reports afterwards (0 when no response code
was received), and the chunks of body bytes it passes to the write callback,
in order. -/
structure PerformResult where
  res : CURLcode
  http_code : Int
  chunks : List String
  deriving DecidableEq

/-- Observable events of one `make_request` call, in program order. -/
inductive Event where
  | log_info (message : String)
  | log_warning (message : String)
  | log_error (message : String)
  | curl_easy_perform (attempt : Nat) (handle : CurlHandle)
  | exponential_backoff (attempt : Nat)
  deriving DecidableEq

/-- The return statement through which `make_request` left. -/
inductive ExitPoint where
  | return_success
  | return_in_catch
  | return_after_loop
  deriving DecidableEq

/-- How the `try` block of one loop iteration ends. -/
inductive Signal where
  | returned
  | continued
  | thrown (e : ApiException)
  deriving DecidableEq

/-- The locals of `make_request` and the member `curl_`, with the ghost
trace. -/
structure State where
  response : HttpResponse
  curl : CurlHandle
  attempts : Nat
  events : List Event
  deriving DecidableEq

/-- A finished `make_request` call: the returned response and the ghost
data. -/
structure Run where
  response : HttpResponse
  attempts : Nat
  events : List Event
  curl : CurlHandle
  exit : ExitPoint
  deriving DecidableEq

/-! ## `HttpUtils.cpp` -/

/-- Conversion `static_cast<int>` of a `long`: reduction to the 32-bit two's
complement range. -/
def static_cast_int (x : Int) : Int :=
  (x + 2147483648) % 4294967296 - 2147483648

/-- Function `is_retryable_error` of `HttpUtils.cpp`. -/
def is_retryable_error (status_code : Int) : Bool :=
  decide (status_code ≥ 500) || decide (status_code = 429)

/-- Function `is_retryable_curl_error` of `HttpUtils.cpp`. -/
def is_retryable_curl_error (code : CURLcode) : Bool :=
  match code with
  | .CURLE_COULDNT_CONNECT => true
  | .CURLE_COULDNT_RESOLVE_HOST => true
  | .CURLE_OPERATION_TIMEDOUT => true
  | .CURLE_SSL_CONNECT_ERROR => true
  | .CURLE_GOT_NOTHING => true
  | .CURLE_SEND_ERROR => true
  | .CURLE_RECV_ERROR => true
  | _ => false

/-- Function `WriteCallback` of `HttpUtils.cpp`: appends the first
`size * nmemb` characters at `contents` to the string behind `userp` and
returns `size * nmemb`.  The result is the pair (return value, new string).
The product is the length of a buffer in memory, so it is taken in `ℕ`. -/
def WriteCallback (contents : List Char) (size nmemb : Nat) (userp : String) :
    Nat × String :=
  (size * nmemb, userp ++ String.mk (contents.take (size * nmemb)))

/-! ## `HttpClient.cpp` -/

/-- The part of libcurl that the model takes as given: the text
`curl_easy_strerror` returns for each code, and what the `curl_easy_perform`
call of each attempt (indexed by the loop counter) does. -/
structure World where
  curl_easy_strerror : CURLcode → String
  curl_easy_perform : Nat → PerformResult

/-- Data members of class `HttpClient`: the handle `curl_` (its option state)
and `timeout_seconds_`. -/
structure HttpClient where
  curl_ : CurlHandle
  timeout_seconds_ : Int
  deriving DecidableEq

/-- Call `curl_easy_reset`: no option is set any more. -/
def curl_easy_reset (_curl : CurlHandle) : CurlHandle :=
  { timeout := none, connecttimeout := none, followlocation := none,
    maxredirs := none, ssl_verifypeer := none, ssl_verifyhost := none,
    useragent := none, url := none, post := none, customrequest := none,
    postfields := none, httpheader := none,
    writefunction_is_WriteCallback := false,
    writedata_is_response_body := false }

/-- Method `HttpClient::setup_common_options`. -/
def setup_common_options (timeout_seconds_ : Int) (curl : CurlHandle) : CurlHandle :=
  { curl with
    timeout := some timeout_seconds_,
    connecttimeout := some 10,
    followlocation := some 1,
    maxredirs := some 3,
    ssl_verifypeer := some 1,
    ssl_verifyhost := some 2,
    useragent := some "C++-API-Client/1.0" }

/-- Call `curl_slist_append` on a list pointer, `none` being `nullptr`. -/
def curl_slist_append (list : Option (List String)) (s : String) :
    Option (List String) :=
  match list with
  | none => some [s]
  | some l => some (l ++ [s])

/-- Lines 43 to 75 of `make_request`: the handle is reset, the common options
are set, then URL, method, body, headers and the write callback. -/
def configure (self : HttpClient) (url method data : String)
    (headers : List String) : CurlHandle :=
  let curl := curl_easy_reset self.curl_
  let curl := setup_common_options self.timeout_seconds_ curl
  let curl := { curl with url := some url }
  let curl :=
    if method = "POST" then { curl with post := some 1 }
    else if method = "PUT" then { curl with customrequest := some "PUT" }
    else if method = "DELETE" then { curl with customrequest := some "DELETE" }
    else curl
  let curl := if ¬ data = "" then { curl with postfields := some data } else curl
  let header_list := headers.foldl curl_slist_append none
  let curl :=
    match header_list with
    | some l => { curl with httpheader := some l }
    | none => curl
  { curl with writefunction_is_WriteCallback := true,
              writedata_is_response_body := true }

/-- Effect of `curl_easy_perform` on `response.body`: each chunk is handed to
`WriteCallback` with `size = 1`, `nmemb` the chunk length and `userp`
pointing at `response.body`. -/
def deliver (chunks : List String) (body : String) : String :=
  chunks.foldl (fun b c => (WriteCallback c.data 1 c.length b).2) body

/-- Appends one event to the trace. -/
def State.emit (st : State) (e : Event) : State :=
  { st with events := st.events ++ [e] }

/-- The `try` block of one loop iteration (lines 41 to 118). -/
def try_block (w : World) (self : HttpClient) (url method data : String)
    (headers : List String) (attempt : Nat) (st : State) : State × Signal :=
  let st := st.emit (.log_info ("Making " ++ method ++ " request to " ++ url ++
    " (attempt " ++ toString (attempt + 1) ++ ")"))
  let st := { st with curl := configure { self with curl_ := st.curl } url method data headers }
  -- CURLcode res = curl_easy_perform(curl_);
  let out := w.curl_easy_perform attempt
  let res := out.res
  let st := { st with attempts := st.attempts + 1 }
  let st := st.emit (.curl_easy_perform attempt st.curl)
  let st := { st with response := { st.response with body := deliver out.chunks st.response.body } }
  -- response.status_code = static_cast<int>(http_code);
  let st := { st with response := { st.response with status_code := static_cast_int out.http_code } }
  if res ≠ CURLcode.CURLE_OK then
    let st := { st with response := { st.response with error_message := w.curl_easy_strerror res } }
    let st := st.emit (.log_error ("cURL error: " ++ st.response.error_message))
    if is_retryable_curl_error res && decide (attempt < MAX_RETRIES) then
      (st.emit (.exponential_backoff attempt), Signal.continued)
    else
      (st, Signal.thrown (ApiException.mk1 ("cURL error: " ++ st.response.error_message)))
  else if st.response.status_code ≥ 200 ∧ st.response.status_code < 300 then
    let st := { st with response := { st.response with success := true } }
    let st := st.emit (.log_info ("Request successful with status code: " ++
      toString st.response.status_code))
    (st, Signal.returned)
  else
    let st := { st with response := { st.response with
      error_message := "HTTP " ++ toString st.response.status_code } }
    let st := st.emit (.log_warning ("HTTP error: " ++ st.response.error_message))
    if is_retryable_error st.response.status_code && decide (attempt < MAX_RETRIES) then
      (st.emit (.exponential_backoff attempt), Signal.continued)
    else
      (st, Signal.thrown (ApiException.mk2
        ("HTTP error: " ++ toString st.response.status_code) st.response.status_code))

/-- The value a `return response;` hands back. -/
def State.finish (st : State) (exit : ExitPoint) : Run :=
  { response := st.response, attempts := st.attempts, events := st.events,
    curl := st.curl, exit := exit }

/-- The handler `catch (const std::exception& e)` (lines 120 to 127).  It
either returns from `make_request` (left) or falls out of the handler, after
which the loop goes on to its increment (right). -/
def catch_block (attempt : Nat) (st : State) (e : ApiException) : Run ⊕ State :=
  let st := st.emit (.log_error ("Request failed: " ++ e.what))
  if attempt = MAX_RETRIES then
    let st := { st with response := { st.response with error_message := e.what } }
    .inl (st.finish .return_in_catch)
  else
    .inr (st.emit (.exponential_backoff attempt))

/-- The loop `for (int attempt = 0; attempt <= MAX_RETRIES; ++attempt)` with
the `return response;` that follows it.  The first argument is the number of
iterations left before the loop condition fails, `MAX_RETRIES + 1 - attempt`.
An exception that no handler of the loop body takes leaves the function. -/
def make_request_loop (w : World) (self : HttpClient) (url method data : String)
    (headers : List String) : Nat → Nat → State → Except ApiException Run
  | 0, _, st => .ok (st.finish .return_after_loop)
  | remaining + 1, attempt, st =>
    match try_block w self url method data headers attempt st with
    | (st, .returned) => .ok (st.finish .return_success)
    | (st, .continued) =>
      make_request_loop w self url method data headers remaining (attempt + 1) st
    | (st, .thrown e) =>
      match catch_block attempt st e with
      | .inl run => .ok run
      | .inr st =>
        make_request_loop w self url method data headers remaining (attempt + 1) st

/-- Method `HttpClient::make_request`. -/
def make_request (w : World) (self : HttpClient) (url method data : String)
    (headers : List String) : Except ApiException Run :=
  make_request_loop w self url method data headers (MAX_RETRIES + 1) 0
    { response := HttpResponse.init, curl := self.curl_, attempts := 0, events := [] }

/-! ## Vocabulary of the properties -/

/-- The status code an attempt stores in `response.status_code`. -/
def PerformResult.status (o : PerformResult) : Int := static_cast_int o.http_code

/-- The attempt succeeded: the transfer returned `CURLE_OK` and the stored
status code lies in [200, 300). -/
def PerformResult.is_2xx (o : PerformResult) : Bool :=
  decide (o.res = CURLcode.CURLE_OK) && decide (200 ≤ o.status) && decide (o.status < 300)

/-- The attempt ended in a transport failure. -/
def PerformResult.is_transport_failure (o : PerformResult) : Bool :=
  decide (o.res ≠ CURLcode.CURLE_OK)

/-- The attempt ended in an HTTP failure: `CURLE_OK` with a status outside
[200, 300). -/
def PerformResult.is_http_failure (o : PerformResult) : Bool :=
  decide (o.res = CURLcode.CURLE_OK) && !(decide (200 ≤ o.status) && decide (o.status < 300))

/-- The attempt ended in a failure that the two classifiers call retryable. -/
def PerformResult.is_retryable_failure (o : PerformResult) : Bool :=
  (o.is_transport_failure && is_retryable_curl_error o.res) ||
  (o.is_http_failure && is_retryable_error o.status)

/-- The attempt ended in a failure that the two classifiers call
non-retryable. -/
def PerformResult.is_non_retryable_failure (o : PerformResult) : Bool :=
  (o.is_transport_failure && !is_retryable_curl_error o.res) ||
  (o.is_http_failure && !is_retryable_error o.status)

/-- The `what()` text of the exception a failed final attempt raises. -/
def failure_what (w : World) (o : PerformResult) : String :=
  if o.res ≠ CURLcode.CURLE_OK then "cURL error: " ++ w.curl_easy_strerror o.res
  else "HTTP error: " ++ toString o.status

/-- A handle on which no option is set, as `curl_easy_init` returns it. -/
def CurlHandle.fresh : CurlHandle :=
  { timeout := none, connecttimeout := none, followlocation := none,
    maxredirs := none, ssl_verifypeer := none, ssl_verifyhost := none,
    useragent := none, url := none, post := none, customrequest := none,
    postfields := none, httpheader := none,
    writefunction_is_WriteCallback := false,
    writedata_is_response_body := false }

/-- Constructor `HttpClient(timeout_seconds)` when `curl_easy_init` succeeds. -/
def HttpClient.init (timeout_seconds : Int) : HttpClient :=
  { curl_ := setup_common_options timeout_seconds CurlHandle.fresh,
    timeout_seconds_ := timeout_seconds }

/-- The event is a `curl_easy_perform` call. -/
def Event.is_perform : Event → Bool
  | .curl_easy_perform _ _ => true
  | _ => false

/-- Number of `curl_easy_perform` calls in a trace. -/
def perform_count (events : List Event) : Nat := events.countP Event.is_perform

/-! ## Sample inputs -/

/-- Some texts of `curl_easy_strerror`. -/
def sample_strerror : CURLcode → String
  | .CURLE_OK => "No error"
  | .CURLE_UNSUPPORTED_PROTOCOL => "Unsupported protocol"
  | .CURLE_URL_MALFORMAT => "URL using bad/illegal format or missing URL"
  | .CURLE_COULDNT_RESOLVE_HOST => "Couldn't resolve host name"
  | .CURLE_COULDNT_CONNECT => "Couldn't connect to server"
  | .CURLE_OPERATION_TIMEDOUT => "Timeout was reached"
  | _ => "Unknown error"

/-- Attempt 0 answers 503 with a body, every later attempt answers 200. -/
def world_503_then_200 : World :=
  { curl_easy_strerror := sample_strerror,
    curl_easy_perform := fun attempt =>
      match attempt with
      | 0 => { res := .CURLE_OK, http_code := 503, chunks := ["Service ", "Unavailable"] }
      | _ => { res := .CURLE_OK, http_code := 200, chunks := ["ok"] } }

/-- Attempt 0 answers 404, every later attempt answers 200. -/
def world_404_then_200 : World :=
  { curl_easy_strerror := sample_strerror,
    curl_easy_perform := fun attempt =>
      match attempt with
      | 0 => { res := .CURLE_OK, http_code := 404, chunks := ["Not Found"] }
      | _ => { res := .CURLE_OK, http_code := 200, chunks := ["ok"] } }

/-- Every attempt gets the same HTTP status and an empty body. -/
def world_always (http_code : Int) : World :=
  { curl_easy_strerror := sample_strerror,
    curl_easy_perform := fun _ => { res := .CURLE_OK, http_code := http_code, chunks := [] } }

/-- Every attempt fails in the transport with the same code, and no response
code is ever received. -/
def world_transport_failure (code : CURLcode) : World :=
  { curl_easy_strerror := sample_strerror,
    curl_easy_perform := fun _ => { res := code, http_code := 0, chunks := [] } }

/-! ## `exponential_backoff` and `ApiException` copies -/

/-- A value drawn by `dis(gen)`: a `double` is a fraction of two integers,
`num / den` with `den > 0`. -/
structure Jitter where
  num : Int
  den : Int
  deriving DecidableEq

/-- The drawn factor lies in the range of
`std::uniform_real_distribution<> dis(0.5, 1.5)`: `1/2 ≤ num / den < 3/2`. -/
def Jitter.in_range (j : Jitter) : Prop :=
  0 < j.den ∧ j.den ≤ 2 * j.num ∧ 2 * j.num < 3 * j.den

instance (j : Jitter) : Decidable j.in_range := by
  unfold Jitter.in_range; exact inferInstance

/-- Expression `a << k` on `int`, in 32-bit two's complement.  (C++ leaves the
shift undefined for `k < 0` and `k ≥ 32`; the model keeps wrapping, with a
negative count read as 0.) -/
def int_shl (a k : Int) : Int := static_cast_int (a * 2 ^ k.toNat)

/-- Expression `a * b` on `int`, in 32-bit two's complement. -/
def int_mul (a b : Int) : Int := static_cast_int (a * b)

/-- The first value of `backoff_ms` in `exponential_backoff`:
`std::min(INITIAL_BACKOFF_MS * (1 << (attempt - 1)), MAX_BACKOFF_MS)`. -/
def backoff_base (attempt : Int) : Int :=
  min (int_mul INITIAL_BACKOFF_MS (int_shl 1 (static_cast_int (attempt - 1)))) MAX_BACKOFF_MS

/-- Expression `static_cast<int>(backoff_ms * dis(gen))`: the product with the
drawn factor, taken exactly, truncated toward zero. -/
def apply_jitter (backoff_ms : Int) (j : Jitter) : Int :=
  Int.tdiv (backoff_ms * j.num) j.den

/-- What a call of `exponential_backoff` that gets past its first line does:
the message it passes to `log_info` and the milliseconds it sleeps. -/
structure BackoffEffect where
  message : String
  sleep_ms : Int
  deriving DecidableEq

/-- Function `exponential_backoff` of `HttpUtils.cpp`, given the factor that
`dis(gen)` draws.  The result is `none` when the call returns at
`if (attempt == 0) return;` without sleeping. -/
def exponential_backoff (attempt : Int) (j : Jitter) : Option BackoffEffect :=
  if attempt = 0 then none
  else
    let backoff_ms := backoff_base attempt
    let backoff_ms := apply_jitter backoff_ms j
    some { message := "Retrying in " ++ toString backoff_ms ++ "ms (attempt " ++
             toString (static_cast_int (attempt + 1)) ++ ")",
           sleep_ms := backoff_ms }

/-- The implicit copy constructor of `ApiException`: base `std::runtime_error`
(the message) and `status_code_` are copied. -/
def ApiException.copy (original : ApiException) : ApiException :=
  { what := original.what, status_code := original.status_code }

/-! ## Vocabulary of the trace -/

/-- The event is a `log_warning` call. -/
def Event.is_warning : Event → Bool
  | .log_warning _ => true
  | _ => false

/-- The event is a `log_error` call. -/
def Event.is_error : Event → Bool
  | .log_error _ => true
  | _ => false

/-- Number of `log_warning` calls in a trace. -/
def warning_count (events : List Event) : Nat := events.countP Event.is_warning

/-- Number of `log_error` calls in a trace. -/
def error_count (events : List Event) : Nat := events.countP Event.is_error

/-- The arguments of the `exponential_backoff` calls of a trace, in order. -/
def backoff_calls (events : List Event) : List Nat :=
  events.filterMap fun e =>
    match e with
    | .exponential_backoff attempt => some attempt
    | _ => none

/-- The `curl_easy_perform` calls of a trace, in order: attempt index and the
configuration of the handle at the call. -/
def perform_calls (events : List Event) : List (Nat × CurlHandle) :=
  events.filterMap fun e =>
    match e with
    | .curl_easy_perform attempt handle => some (attempt, handle)
    | _ => none

/-- The sleeps of a run: the `k`-th `exponential_backoff` call draws the
factor `jitter k`; an entry is `none` when that call returns without
sleeping. -/
def sleep_schedule (jitter : Nat → Jitter) (events : List Event) : List (Option Int) :=
  (backoff_calls events).enum.map fun p =>
    (exponential_backoff (p.2 : Int) (jitter p.1)).map BackoffEffect.sleep_ms

/-- The failed attempt raises an `ApiException` (lines 99 and 116): the
classifier rejects the failure, or no retry is left. -/
def attempt_throws (o : PerformResult) (attempt : Nat) : Bool :=
  !o.is_2xx &&
    !((if o.res ≠ CURLcode.CURLE_OK then is_retryable_curl_error o.res
       else is_retryable_error o.status) && decide (attempt < MAX_RETRIES))

/-- The events of loop iteration `attempt`, read off the outcome of its
`curl_easy_perform` call; `handle` is the configuration of the handle. -/
def attempt_events (w : World) (handle : CurlHandle) (url method : String)
    (attempt : Nat) : List Event :=
  let o := w.curl_easy_perform attempt
  [Event.log_info ("Making " ++ method ++ " request to " ++ url ++
      " (attempt " ++ toString (attempt + 1) ++ ")"),
   Event.curl_easy_perform attempt handle] ++
  (if o.is_2xx then
    [Event.log_info ("Request successful with status code: " ++ toString o.status)]
   else
    (if o.res ≠ CURLcode.CURLE_OK then
      [Event.log_error ("cURL error: " ++ w.curl_easy_strerror o.res)]
     else [Event.log_warning ("HTTP error: " ++ ("HTTP " ++ toString o.status))]) ++
    (if attempt_throws o attempt then
      [Event.log_error ("Request failed: " ++ failure_what w o)] ++
        (if attempt = MAX_RETRIES then [] else [Event.exponential_backoff attempt])
     else [Event.exponential_backoff attempt]))

/-- The events of `count` consecutive iterations starting at `attempt`. -/
def trace (w : World) (handle : CurlHandle) (url method : String) :
    Nat → Nat → List Event
  | 0, _ => []
  | count + 1, attempt =>
    attempt_events w handle url method attempt ++ trace w handle url method count (attempt + 1)

/-- Number of HTTP failures among the first `attempts` attempts. -/
def http_failures (w : World) (attempts : Nat) : Nat :=
  (List.range attempts).countP fun a => (w.curl_easy_perform a).is_http_failure

/-- Number of transport failures among the first `attempts` attempts. -/
def transport_failures (w : World) (attempts : Nat) : Nat :=
  (List.range attempts).countP fun a => (w.curl_easy_perform a).is_transport_failure

/-- Number of the first `attempts` attempts that raise an `ApiException`. -/
def thrown_exceptions (w : World) (attempts : Nat) : Nat :=
  (List.range attempts).countP fun a => attempt_throws (w.curl_easy_perform a) a

/-- Number of failures that the classifiers call non-retryable among the
first `attempts` attempts. -/
def non_retryable_failures (w : World) (attempts : Nat) : Nat :=
  (List.range attempts).countP fun a => (w.curl_easy_perform a).is_non_retryable_failure

/-- Attempts 0 and 1 answer 503, every later attempt answers 200. -/
def world_503_503_200 : World :=
  { curl_easy_strerror := sample_strerror,
    curl_easy_perform := fun attempt =>
      match attempt with
      | 0 => { res := .CURLE_OK, http_code := 503, chunks := [] }
      | 1 => { res := .CURLE_OK, http_code := 503, chunks := [] }
      | _ => { res := .CURLE_OK, http_code := 200, chunks := ["ok"] } }

/-- The factor 1.0 at every draw. -/
def jitter_one : Nat → Jitter := fun _ => { num := 1, den := 1 }

/-! ## The simpler retry loop, received bodies, total sleep -/

/-- Result of the simpler loop: the response, the number of attempts and the
arguments of its backoff calls, in order. -/
structure SimpleRun where
  response : HttpResponse
  attempts : Nat
  backoffs : List Nat
  deriving DecidableEq

/-- The simpler loop that `make_request` is compared with: an attempt that is a
2xx ends the call with `success = true`; any other attempt is retried, after
a backoff call, while `attempt < MAX_RETRIES`, and ends the call in failure
otherwise.  Neither `is_retryable_error` nor `is_retryable_curl_error`
occurs.  The response fields are written as in `make_request`. -/
def simple_retry_loop (w : World) : Nat → Nat → HttpResponse → SimpleRun
  | 0, _, response => { response := response, attempts := 0, backoffs := [] }
  | remaining + 1, attempt, response =>
    let out := w.curl_easy_perform attempt
    let response := { response with
      body := deliver out.chunks response.body, status_code := out.status }
    if out.is_2xx then
      { response := { response with success := true }, attempts := 1, backoffs := [] }
    else if attempt < MAX_RETRIES then
      let response := { response with
        error_message :=
          if out.res ≠ CURLcode.CURLE_OK then w.curl_easy_strerror out.res
          else "HTTP " ++ toString out.status }
      let rest := simple_retry_loop w remaining (attempt + 1) response
      { response := rest.response, attempts := rest.attempts + 1,
        backoffs := attempt :: rest.backoffs }
    else
      { response := { response with error_message := failure_what w out },
        attempts := 1, backoffs := [] }

/-- The simpler loop run from the start, as `make_request` runs its loop. -/
def simple_make_request (w : World) : SimpleRun :=
  simple_retry_loop w (MAX_RETRIES + 1) 0 HttpResponse.init

/-- The sleeps of the simpler loop: its `k`-th backoff call draws `jitter k`. -/
def SimpleRun.sleep_schedule (run : SimpleRun) (jitter : Nat → Jitter) :
    List (Option Int) :=
  run.backoffs.enum.map fun p =>
    (exponential_backoff (p.2 : Int) (jitter p.1)).map BackoffEffect.sleep_ms

/-- The body bytes received in attempt `a`: its chunks, in order. -/
def received (w : World) (a : Nat) : String :=
  String.join (w.curl_easy_perform a).chunks

/-- The body bytes received in the first `attempts` attempts, in attempt
order. -/
def all_received (w : World) (attempts : Nat) : String :=
  String.join ((List.range attempts).map (received w))

/-- Total of the milliseconds slept in a schedule; a call that returns
without sleeping counts 0. -/
def total_sleep (schedule : List (Option Int)) : Int :=
  (schedule.map fun entry => entry.getD 0).sum

/-- Attempts 0, 1 and 2 answer 503 with a body, attempt 3 answers 200. -/
def world_503_503_503_200 : World :=
  { curl_easy_strerror := sample_strerror,
    curl_easy_perform := fun attempt =>
      match attempt with
      | 0 => { res := .CURLE_OK, http_code := 503, chunks := ["a"] }
      | 1 => { res := .CURLE_OK, http_code := 503, chunks := ["b", "c"] }
      | 2 => { res := .CURLE_OK, http_code := 503, chunks := [] }
      | _ => { res := .CURLE_OK, http_code := 200, chunks := ["ok"] } }

/-- Every attempt times out after the response headers arrived: the transfer
fails with `CURLE_OPERATION_TIMEDOUT` and `CURLINFO_RESPONSE_CODE` reports
200. -/
def world_timeout_after_headers : World :=
  { curl_easy_strerror := sample_strerror,
    curl_easy_perform := fun _ =>
      { res := .CURLE_OPERATION_TIMEDOUT, http_code := 200, chunks := ["partial"] } }

/-! ## `make_request` when `std::random_device` can fail -/

/-- The one library failure the development follows: the constructor of
`std::random_device` in `exponential_backoff` may throw an exception derived
from `std::exception`.  `random_device_fails attempt in_handler` tells whether
it does in the call `exponential_backoff(attempt)` made from the `try` block
(`in_handler = false`, lines 96 and 113) or from the handler
(`in_handler = true`, line 126); `random_device_what` is the `what()` text of
that exception.  Allocation failures and stream errors are not followed. -/
structure Faults where
  random_device_fails : Nat → Bool → Bool
  random_device_what : String

/-- The exception objects that travel through `make_request`; both classes
derive from `std::exception`, so `catch (const std::exception& e)` takes
both. -/
inductive Thrown where
  | api_exception (e : ApiException)
  | random_device_error (what : String)
  deriving DecidableEq

/-- Member `what()` of a thrown object. -/
def Thrown.what : Thrown → String
  | .api_exception e => e.what
  | .random_device_error what => what

/-- The call `exponential_backoff(attempt)` throws: it gets past
`if (attempt == 0) return;` and the constructor of `std::random_device`
fails. -/
def exponential_backoff_throws (f : Faults) (attempt : Nat) (in_handler : Bool) : Bool :=
  !decide (attempt = 0) && f.random_device_fails attempt in_handler

/-- How the `try` block ends when `exponential_backoff` can throw. -/
inductive FallibleSignal where
  | returned
  | continued
  | thrown (e : Thrown)
  deriving DecidableEq

/-- The `try` block with the failure followed: it is `try_block`, except that
on the two paths that end in `continue` the `exponential_backoff` call in
front of the `continue` may throw instead. -/
def try_block_fallible (f : Faults) (w : World) (self : HttpClient)
    (url method data : String) (headers : List String) (attempt : Nat) (st : State) :
    State × FallibleSignal :=
  match try_block w self url method data headers attempt st with
  | (st, .returned) => (st, .returned)
  | (st, .continued) =>
    if exponential_backoff_throws f attempt false then
      (st, .thrown (.random_device_error f.random_device_what))
    else (st, .continued)
  | (st, .thrown e) => (st, .thrown (.api_exception e))

/-- The handler with the failure followed.  The `exponential_backoff` call at
line 126 is inside no `try` block: an exception it throws leaves
`make_request` (`Except.error`). -/
def catch_block_fallible (f : Faults) (attempt : Nat) (st : State) (e : Thrown) :
    Except Thrown (Run ⊕ State) :=
  let st := st.emit (.log_error ("Request failed: " ++ e.what))
  if attempt = MAX_RETRIES then
    let st := { st with response := { st.response with error_message := e.what } }
    .ok (.inl (st.finish .return_in_catch))
  else if exponential_backoff_throws f attempt true then
    .error (.random_device_error f.random_device_what)
  else
    .ok (.inr (st.emit (.exponential_backoff attempt)))

/-- The loop of `make_request` with the failure followed; the first argument
is again the number of iterations left. -/
def make_request_loop_fallible (f : Faults) (w : World) (self : HttpClient)
    (url method data : String) (headers : List String) :
    Nat → Nat → State → Except Thrown Run
  | 0, _, st => .ok (st.finish .return_after_loop)
  | remaining + 1, attempt, st =>
    match try_block_fallible f w self url method data headers attempt st with
    | (st, .returned) => .ok (st.finish .return_success)
    | (st, .continued) =>
      make_request_loop_fallible f w self url method data headers remaining (attempt + 1) st
    | (st, .thrown e) =>
      match catch_block_fallible f attempt st e with
      | .error x => .error x
      | .ok (.inl run) => .ok run
      | .ok (.inr st) =>
        make_request_loop_fallible f w self url method data headers remaining (attempt + 1) st

/-- Method `HttpClient::make_request` with the failure followed. -/
def make_request_fallible (f : Faults) (w : World) (self : HttpClient)
    (url method data : String) (headers : List String) : Except Thrown Run :=
  make_request_loop_fallible f w self url method data headers (MAX_RETRIES + 1) 0
    { response := HttpResponse.init, curl := self.curl_, attempts := 0, events := [] }

/-- The random device never fails. -/
def faults_none : Faults :=
  { random_device_fails := fun _ _ => false, random_device_what := "" }

/-! ## Lemmas on the conversions and on one loop iteration -/

theorem static_cast_int_of_range (x : Int) (h1 : -2147483648 ≤ x) (h2 : x < 2147483648) :
    static_cast_int x = x := by
  unfold static_cast_int; omega

theorem static_cast_int_range (x : Int) :
    -2147483648 ≤ static_cast_int x ∧ static_cast_int x < 2147483648 := by
  unfold static_cast_int; omega

theorem string_append_ne_empty (p s : String) (hp : p ≠ "") : p ++ s ≠ "" := by
  intro h
  have hl := congrArg String.length h
  simp only [String.length_append] at hl
  have h0 : p.length = 0 := by
    have : ("" : String).length = 0 := rfl
    omega
  apply hp
  cases p with
  | mk l =>
    cases l with
    | nil => rfl
    | cons c cs => simp [String.length] at h0

theorem failure_what_ne_empty (w : World) (o : PerformResult) : failure_what w o ≠ "" := by
  unfold failure_what
  split
  · exact string_append_ne_empty _ _ (by decide)
  · exact string_append_ne_empty _ _ (by decide)

theorem deliver_nil (body : String) : deliver [] body = body := rfl

theorem deliver_cons (c : String) (cs : List String) (body : String) :
    deliver (c :: cs) body = deliver cs (body ++ c) := by
  have hc : String.mk (List.take c.length c.data) = c := by
    cases c with
    | mk l =>
      show String.mk (List.take l.length l) = String.mk l
      rw [List.take_length]
  simp [deliver, WriteCallback, hc]

theorem is_2xx_iff (o : PerformResult) :
    o.is_2xx = true ↔ o.res = CURLcode.CURLE_OK ∧ 200 ≤ o.status ∧ o.status < 300 := by
  simp [PerformResult.is_2xx, and_assoc]

theorem not_2xx_of_retryable (o : PerformResult) (h : o.is_retryable_failure = true) :
    o.is_2xx = false := by
  simp only [PerformResult.is_retryable_failure, PerformResult.is_transport_failure,
    PerformResult.is_http_failure, PerformResult.is_2xx] at *
  by_cases h1 : o.res = CURLcode.CURLE_OK <;> simp_all
  intro _; omega

theorem not_2xx_of_non_retryable (o : PerformResult) (h : o.is_non_retryable_failure = true) :
    o.is_2xx = false := by
  simp only [PerformResult.is_non_retryable_failure, PerformResult.is_transport_failure,
    PerformResult.is_http_failure, PerformResult.is_2xx] at *
  by_cases h1 : o.res = CURLcode.CURLE_OK <;> simp_all
  intro _; omega

/-- A 2xx attempt returns from the `try` block with `success = true`; the
error message is left as it was. -/
theorem loop_success (w : World) (self : HttpClient) (url method data : String)
    (headers : List String) (n attempt : Nat) (st : State)
    (h : (w.curl_easy_perform attempt).is_2xx = true) :
    ∃ r, make_request_loop w self url method data headers (n + 1) attempt st = .ok r ∧
      r.attempts = st.attempts + 1 ∧ r.exit = .return_success ∧
      r.response = { status_code := (w.curl_easy_perform attempt).status,
                     body := deliver (w.curl_easy_perform attempt).chunks st.response.body,
                     error_message := st.response.error_message,
                     success := true } := by
  simp only [PerformResult.is_2xx, PerformResult.status, Bool.and_eq_true, decide_eq_true_eq] at h
  obtain ⟨⟨h1, h2⟩, h3⟩ := h
  simp [make_request_loop, try_block, State.emit, State.finish, h1, h2, h3, PerformResult.status]

/-- A failed attempt before the last one leads to the next iteration, whatever
the classifiers say. -/
theorem loop_failure_step (w : World) (self : HttpClient) (url method data : String)
    (headers : List String) (n attempt : Nat) (st : State)
    (h : (w.curl_easy_perform attempt).is_2xx = false) (ha : attempt < MAX_RETRIES) :
    ∃ st', make_request_loop w self url method data headers (n + 1) attempt st =
        make_request_loop w self url method data headers n (attempt + 1) st' ∧
      st'.attempts = st.attempts + 1 ∧
      st'.response.success = st.response.success ∧
      st'.response.status_code = (w.curl_easy_perform attempt).status ∧
      st'.response.body = deliver (w.curl_easy_perform attempt).chunks st.response.body ∧
      st'.response.error_message =
        (if (w.curl_easy_perform attempt).res ≠ CURLcode.CURLE_OK
         then w.curl_easy_strerror (w.curl_easy_perform attempt).res
         else "HTTP " ++ toString (w.curl_easy_perform attempt).status) := by
  have hne : ¬ attempt = MAX_RETRIES := by omega
  simp only [PerformResult.is_2xx, PerformResult.status] at h
  by_cases h1 : (w.curl_easy_perform attempt).res = CURLcode.CURLE_OK
  · have h2 : ¬ (200 ≤ static_cast_int (w.curl_easy_perform attempt).http_code ∧
        static_cast_int (w.curl_easy_perform attempt).http_code < 300) := by
      intro hc; simp [h1, hc.1, hc.2] at h
    by_cases hr : is_retryable_error (static_cast_int (w.curl_easy_perform attempt).http_code) = true
    · simp only [make_request_loop, try_block, State.emit, h1, h2, hr, ha,
        PerformResult.status, ne_eq, not_true_eq_false, if_false, if_true, decide_True,
        Bool.and_self]
      exact ⟨_, rfl, rfl, rfl, rfl, rfl, rfl⟩
    · simp only [make_request_loop, try_block, catch_block, State.emit, h1, h2, hr, hne,
        PerformResult.status, ne_eq, not_true_eq_false, if_false, if_true, decide_True,
        Bool.and_self, Bool.false_and]
      exact ⟨_, rfl, rfl, rfl, rfl, rfl, rfl⟩
  · by_cases hr : is_retryable_curl_error (w.curl_easy_perform attempt).res = true
    · simp only [make_request_loop, try_block, State.emit, h1, hr, ha,
        PerformResult.status, ne_eq, not_false_eq_true, if_false, if_true, decide_True,
        Bool.and_self]
      exact ⟨_, rfl, rfl, rfl, rfl, rfl, rfl⟩
    · simp only [make_request_loop, try_block, catch_block, State.emit, h1, hr, hne,
        PerformResult.status, ne_eq, not_false_eq_true, if_false, if_true, decide_True,
        Bool.and_self, Bool.false_and]
      exact ⟨_, rfl, rfl, rfl, rfl, rfl, rfl⟩

/-- A failed attempt with index `MAX_RETRIES` returns from the handler with
the `what()` text as error message. -/
theorem loop_failure_last (w : World) (self : HttpClient) (url method data : String)
    (headers : List String) (n : Nat) (st : State)
    (h : (w.curl_easy_perform MAX_RETRIES).is_2xx = false) :
    ∃ r, make_request_loop w self url method data headers (n + 1) MAX_RETRIES st = .ok r ∧
      r.attempts = st.attempts + 1 ∧ r.exit = .return_in_catch ∧
      r.response = { status_code := (w.curl_easy_perform MAX_RETRIES).status,
                     body := deliver (w.curl_easy_perform MAX_RETRIES).chunks st.response.body,
                     error_message := failure_what w (w.curl_easy_perform MAX_RETRIES),
                     success := st.response.success } := by
  simp only [PerformResult.is_2xx, PerformResult.status] at h
  by_cases h1 : (w.curl_easy_perform MAX_RETRIES).res = CURLcode.CURLE_OK
  · have h2 : ¬ (200 ≤ static_cast_int (w.curl_easy_perform MAX_RETRIES).http_code ∧
        static_cast_int (w.curl_easy_perform MAX_RETRIES).http_code < 300) := by
      intro hc; simp [h1, hc.1, hc.2] at h
    simp [make_request_loop, try_block, catch_block, State.emit, State.finish, h1, h2,
      PerformResult.status, failure_what, ApiException.mk2]
  · simp [make_request_loop, try_block, catch_block, State.emit, State.finish, h1,
      PerformResult.status, failure_what, ApiException.mk1, ApiException.mk2]

/-- One pass through the `try` block makes exactly one `curl_easy_perform`
call, and the counter `attempts` records it. -/
theorem try_block_counts (w : World) (self : HttpClient) (url method data : String)
    (headers : List String) (attempt : Nat) (st : State) :
    (try_block w self url method data headers attempt st).1.attempts = st.attempts + 1 ∧
    perform_count (try_block w self url method data headers attempt st).1.events =
      perform_count st.events + 1 := by
  unfold try_block
  simp only [State.emit, perform_count]
  split_ifs <;> simp [List.countP_append, List.countP_cons, Event.is_perform]

theorem catch_block_counts (attempt : Nat) (st : State) (e : ApiException) :
    match catch_block attempt st e with
    | .inl r => r.attempts = st.attempts ∧ perform_count r.events = perform_count st.events
    | .inr st' => st'.attempts = st.attempts ∧
        perform_count st'.events = perform_count st.events := by
  unfold catch_block
  simp only [State.emit, State.finish, perform_count]
  split_ifs <;> simp [List.countP_append, List.countP_cons, Event.is_perform]

/-- The counter `attempts` of a finished call is the number of
`curl_easy_perform` calls in its trace. -/
theorem loop_attempts_eq_perform_count (w : World) (self : HttpClient)
    (url method data : String) (headers : List String) :
    ∀ (n attempt : Nat) (st : State) (r : Run),
      make_request_loop w self url method data headers n attempt st = .ok r →
      st.attempts = perform_count st.events → r.attempts = perform_count r.events := by
  intro n
  induction n with
  | zero =>
    intro attempt st r h hinv
    simp only [make_request_loop, Except.ok.injEq] at h
    subst h
    exact hinv
  | succ n ih =>
    intro attempt st r h hinv
    have hc := try_block_counts w self url method data headers attempt st
    rw [make_request_loop] at h
    rcases hp : try_block w self url method data headers attempt st with ⟨st1, sig⟩
    rw [hp] at h hc
    simp only at hc
    cases sig with
    | returned =>
      simp only [Except.ok.injEq] at h
      subst h
      simp only [State.finish]
      omega
    | continued =>
      exact ih (attempt + 1) st1 r h (by omega)
    | thrown e =>
      have hk := catch_block_counts attempt st1 e
      simp only at h
      rcases hq : catch_block attempt st1 e with r1 | st2
      · rw [hq] at h hk
        simp only [Except.ok.injEq] at h
        subst h
        simp only at hk
        omega
      · rw [hq] at h hk
        simp only at hk h
        exact ih (attempt + 1) st2 r h (by omega)

theorem make_request_attempts_eq_perform_count (w : World) (self : HttpClient)
    (url method data : String) (headers : List String) (r : Run)
    (h : make_request w self url method data headers = .ok r) :
    perform_count r.events = r.attempts :=
  (loop_attempts_eq_perform_count w self url method data headers _ _ _ r h rfl).symm

/-! ## Lemmas on the whole loop -/

/-- A run of `k` failed attempts, none of them the last, is followed by
attempt `attempt + k`. -/
theorem loop_failures_prefix (w : World) (self : HttpClient) (url method data : String)
    (headers : List String) (n : Nat) :
    ∀ (k attempt : Nat) (st : State),
      (∀ i, attempt ≤ i → i < attempt + k → (w.curl_easy_perform i).is_2xx = false) →
      attempt + k ≤ MAX_RETRIES →
      ∃ st', make_request_loop w self url method data headers (n + k) attempt st =
          make_request_loop w self url method data headers n (attempt + k) st' ∧
        st'.attempts = st.attempts + k ∧
        st'.response.success = st.response.success := by
  intro k
  induction k with
  | zero => intro attempt st _ _; exact ⟨st, rfl, rfl, rfl⟩
  | succ k ih =>
    intro attempt st hfail hle
    obtain ⟨st1, e1, a1, s1, _, _, _⟩ :=
      loop_failure_step w self url method data headers (n + k) attempt st
        (hfail attempt (le_refl _) (by omega)) (by omega)
    obtain ⟨st2, e2, a2, s2⟩ := ih (attempt + 1) st1
      (fun i h1 h2 => hfail i (by omega) (by omega)) (by omega)
    refine ⟨st2, ?_, ?_, ?_⟩
    · have hn : n + (k + 1) = n + k + 1 := by omega
      have ha : attempt + (k + 1) = attempt + 1 + k := by omega
      rw [hn, ha, e1, e2]
    · omega
    · rw [s2, s1]

/-- The loop, entered with `remaining + attempt = MAX_RETRIES + 1` and at
least one iteration to go, returns from inside its body: either through the
success return on a 2xx attempt, or through the handler after the attempt
with index `MAX_RETRIES` failed. -/
theorem loop_result (w : World) (self : HttpClient) (url method data : String)
    (headers : List String) :
    ∀ (n attempt : Nat) (st : State), n + attempt = MAX_RETRIES + 1 → 1 ≤ n →
      ∃ r, make_request_loop w self url method data headers n attempt st = .ok r ∧
        st.attempts < r.attempts ∧ r.attempts ≤ st.attempts + n ∧
        r.response.status_code =
          (w.curl_easy_perform (attempt + (r.attempts - st.attempts) - 1)).status ∧
        ((r.exit = .return_success ∧ r.response.success = true ∧
            (w.curl_easy_perform (attempt + (r.attempts - st.attempts) - 1)).is_2xx = true) ∨
         (r.exit = .return_in_catch ∧ r.response.success = st.response.success ∧
            r.attempts = st.attempts + n ∧
            (w.curl_easy_perform MAX_RETRIES).is_2xx = false ∧
            r.response.error_message = failure_what w (w.curl_easy_perform MAX_RETRIES))) := by
  intro n
  induction n with
  | zero => intro attempt st _ h; omega
  | succ n ih =>
    intro attempt st hsum _
    by_cases h2 : (w.curl_easy_perform attempt).is_2xx = true
    · obtain ⟨r, e, ha, hx, hr⟩ := loop_success w self url method data headers n attempt st h2
      have hidx : attempt + (r.attempts - st.attempts) - 1 = attempt := by omega
      refine ⟨r, e, by omega, by omega, ?_, Or.inl ⟨hx, ?_, ?_⟩⟩
      · rw [hidx, hr]
      · rw [hr]
      · rw [hidx]; exact h2
    · have h2f : (w.curl_easy_perform attempt).is_2xx = false := by
        cases hb : (w.curl_easy_perform attempt).is_2xx
        · rfl
        · exact absurd hb h2
      by_cases hlt : attempt < MAX_RETRIES
      · obtain ⟨st1, e1, a1, s1, _, _, _⟩ :=
          loop_failure_step w self url method data headers n attempt st h2f hlt
        obtain ⟨r, e, hlo, hhi, hst, hcase⟩ := ih (attempt + 1) st1 (by omega) (by omega)
        have hidx : attempt + 1 + (r.attempts - st1.attempts) - 1 =
            attempt + (r.attempts - st.attempts) - 1 := by omega
        rw [hidx] at hst hcase
        refine ⟨r, by rw [e1, e], by omega, by omega, hst, ?_⟩
        rcases hcase with ⟨hx, hs, hq⟩ | ⟨hx, hs, hn, hq⟩
        · exact Or.inl ⟨hx, hs, hq⟩
        · exact Or.inr ⟨hx, by rw [hs, s1], by omega, hq⟩
      · have hEq : attempt = MAX_RETRIES := by omega
        have hn0 : n = 0 := by omega
        subst hEq
        subst hn0
        obtain ⟨r, e, ha, hx, hr⟩ :=
          loop_failure_last w self url method data headers 0 st h2f
        have hidx : MAX_RETRIES + (r.attempts - st.attempts) - 1 = MAX_RETRIES := by omega
        refine ⟨r, e, by omega, by omega, ?_, Or.inr ⟨hx, ?_, by omega, h2f, ?_⟩⟩
        · rw [hidx, hr]
        · rw [hr]
        · rw [hr]

/-- When all `MAX_RETRIES + 1` attempts fail, the call returns from the
handler of the last iteration. -/
theorem make_request_all_fail (w : World) (self : HttpClient) (url method data : String)
    (headers : List String)
    (hfail : ∀ a, a ≤ MAX_RETRIES → (w.curl_easy_perform a).is_2xx = false) :
    ∃ r, make_request w self url method data headers = .ok r ∧
      r.attempts = MAX_RETRIES + 1 ∧ r.exit = .return_in_catch ∧
      r.response.success = false ∧
      r.response.status_code = (w.curl_easy_perform MAX_RETRIES).status ∧
      r.response.error_message = failure_what w (w.curl_easy_perform MAX_RETRIES) := by
  obtain ⟨st1, e1, a1, s1⟩ := loop_failures_prefix w self url method data headers 1
    MAX_RETRIES 0 { response := HttpResponse.init, curl := self.curl_, attempts := 0, events := [] }
    (fun i _ h => hfail i (by omega)) (by omega)
  obtain ⟨r, e, ha, hx, hr⟩ := loop_failure_last w self url method data headers 0 st1
    (hfail MAX_RETRIES (le_refl _))
  have hn : MAX_RETRIES + 1 = 1 + MAX_RETRIES := by omega
  have h0 : 0 + MAX_RETRIES = MAX_RETRIES := by omega
  refine ⟨r, ?_, ?_, hx, ?_, ?_, ?_⟩
  · unfold make_request
    rw [hn, e1, h0]
    exact e
  · rw [ha, a1]; simp
  · rw [hr]; simp only; rw [s1]; rfl
  · rw [hr]
  · rw [hr]

/-! ## Retry loop: success after retryable failures (C1) -/

/-- C1: when attempts `0 .. k-1` each end in a retryable failure and attempt
`k`, with `k ≤ MAX_RETRIES`, returns a status `s` in [200, 300), then
`make_request` returns, through the success return, after exactly `k + 1`
attempts, with `success = true` and `status_code = s`. -/
theorem make_request_success_after_retryable_failures (w : World) (self : HttpClient)
    (url method data : String) (headers : List String) (k : Nat) (s : Int)
    (hk : k ≤ MAX_RETRIES)
    (hfail : ∀ a, a < k → (w.curl_easy_perform a).is_retryable_failure = true)
    (hres : (w.curl_easy_perform k).res = CURLcode.CURLE_OK)
    (hs : (w.curl_easy_perform k).status = s) (h200 : 200 ≤ s) (h300 : s < 300) :
    ∃ r, make_request w self url method data headers = .ok r ∧
      r.attempts = k + 1 ∧ perform_count r.events = k + 1 ∧
      r.response.success = true ∧ r.response.status_code = s ∧
      r.exit = ExitPoint.return_success := by
  obtain ⟨st1, e1, a1, _⟩ := loop_failures_prefix w self url method data headers
    (MAX_RETRIES - k + 1) k 0
    { response := HttpResponse.init, curl := self.curl_, attempts := 0, events := [] }
    (fun i _ h => not_2xx_of_retryable _ (hfail i (by omega))) (by omega)
  have h2 : (w.curl_easy_perform k).is_2xx = true :=
    (is_2xx_iff _).mpr ⟨hres, by rw [hs]; exact h200, by rw [hs]; exact h300⟩
  obtain ⟨r, e, ha, hx, hr⟩ :=
    loop_success w self url method data headers (MAX_RETRIES - k) k st1 h2
  have hn : MAX_RETRIES + 1 = MAX_RETRIES - k + 1 + k := by omega
  have h0 : 0 + k = k := by omega
  have hret : make_request w self url method data headers = .ok r := by
    unfold make_request
    rw [hn, e1, h0]
    exact e
  have hatt : r.attempts = k + 1 := by rw [ha, a1]; simp
  refine ⟨r, hret, hatt, ?_, ?_, ?_, hx⟩
  · rw [make_request_attempts_eq_perform_count w self url method data headers r hret, hatt]
  · rw [hr]
  · rw [hr]; exact hs

/-- Instance: attempt 0 answers 503, attempt 1 answers 200. -/
theorem make_request_success_after_retryable_failures_witness :
    ∃ r, make_request world_503_then_200 (HttpClient.init 5)
        "https://httpbin.org/get" "GET" "" [] = .ok r ∧
      r.attempts = 1 + 1 ∧ perform_count r.events = 1 + 1 ∧
      r.response.success = true ∧ r.response.status_code = 200 ∧
      r.exit = ExitPoint.return_success :=
  make_request_success_after_retryable_failures world_503_then_200 (HttpClient.init 5)
    "https://httpbin.org/get" "GET" "" [] 1 200 (by decide) (by decide) (by decide)
    (by decide) (by decide) (by decide)

/-! ## Retry loop: non-retryable failures (C2, C3) -/

/-- C2, evaluated on the code: attempt 0 ends in a non-retryable failure (404,
`is_retryable_error` false) and `0 < MAX_RETRIES`, yet the call does not stop
there; the handler runs the backoff, attempt 1 is issued and, answering 200,
makes the call return `success = true` after 2 attempts. -/
theorem make_request_retries_non_retryable_failure :
    (world_404_then_200.curl_easy_perform 0).is_non_retryable_failure = true ∧
    0 < MAX_RETRIES ∧
    ∃ r, make_request world_404_then_200 (HttpClient.init 5)
        "https://httpbin.org/status/404" "GET" "" [] = .ok r ∧
      r.attempts = 2 ∧ r.response.success = true ∧ r.response.status_code = 200 ∧
      Event.exponential_backoff 0 ∈ r.events :=
  ⟨by decide, by decide, _, rfl, by decide, by decide, by decide, by decide⟩

/-- C3: when every attempt `0 .. MAX_RETRIES` returns the same failing status
`s` that `is_retryable_error` rejects, `make_request` performs exactly
`MAX_RETRIES + 1` attempts and returns `success = false` with
`status_code = s`. -/
theorem make_request_same_non_retryable_status (w : World) (self : HttpClient)
    (url method data : String) (headers : List String) (s : Int)
    (hall : ∀ a, a ≤ MAX_RETRIES →
      (w.curl_easy_perform a).res = CURLcode.CURLE_OK ∧ (w.curl_easy_perform a).status = s)
    (hfailing : ¬ (200 ≤ s ∧ s < 300))
    (_hnon : is_retryable_error s = false) :
    ∃ r, make_request w self url method data headers = .ok r ∧
      r.attempts = MAX_RETRIES + 1 ∧ perform_count r.events = MAX_RETRIES + 1 ∧
      r.response.success = false ∧ r.response.status_code = s := by
  have hf : ∀ a, a ≤ MAX_RETRIES → (w.curl_easy_perform a).is_2xx = false := by
    intro a ha
    cases hb : (w.curl_easy_perform a).is_2xx
    · rfl
    · obtain ⟨_, h1, h2⟩ := (is_2xx_iff _).mp hb
      rw [(hall a ha).2] at h1 h2
      exact absurd ⟨h1, h2⟩ hfailing
  obtain ⟨r, e, ha, _, hs, hc, _⟩ := make_request_all_fail w self url method data headers hf
  exact ⟨r, e, ha,
    by rw [make_request_attempts_eq_perform_count w self url method data headers r e, ha],
    hs, by rw [hc, (hall MAX_RETRIES (le_refl _)).2]⟩

/-- Instance: every attempt answers 404. -/
theorem make_request_same_non_retryable_status_witness :
    ∃ r, make_request (world_always 404) (HttpClient.init 5)
        "https://httpbin.org/status/404" "GET" "" [] = .ok r ∧
      r.attempts = MAX_RETRIES + 1 ∧ perform_count r.events = MAX_RETRIES + 1 ∧
      r.response.success = false ∧ r.response.status_code = 404 :=
  make_request_same_non_retryable_status (world_always 404) (HttpClient.init 5)
    "https://httpbin.org/status/404" "GET" "" [] 404
    (fun _ _ => ⟨rfl, show static_cast_int 404 = 404 by decide⟩) (by decide) (by decide)

/-! ## Retry loop: exhaustion (C4) and the shape of the response (C5, C6) -/

/-- C4 fails as stated: when every attempt times out after the response headers
arrived, every attempt is a retryable transport failure, and the call returns
`success = false` after 4 attempts with `status_code = 200`, not 0: the
response code is stored (lines 81 to 83) before the transport result is
looked at (line 91). -/
theorem make_request_transport_failure_keeps_response_code :
    (world_timeout_after_headers.curl_easy_perform 0).is_transport_failure = true ∧
    (world_timeout_after_headers.curl_easy_perform 0).is_retryable_failure = true ∧
    (world_timeout_after_headers.curl_easy_perform 1).is_retryable_failure = true ∧
    (world_timeout_after_headers.curl_easy_perform 2).is_retryable_failure = true ∧
    (world_timeout_after_headers.curl_easy_perform 3).is_retryable_failure = true ∧
    transport_failures world_timeout_after_headers (MAX_RETRIES + 1) = MAX_RETRIES + 1 ∧
    ∃ r, make_request world_timeout_after_headers (HttpClient.init 1)
        "https://httpbin.org/delay/3" "GET" "" [] = .ok r ∧
      r.attempts = MAX_RETRIES + 1 ∧ r.response.success = false ∧
      r.response.status_code = 200 ∧ r.response.status_code ≠ 0 :=
  ⟨by decide, by decide, by decide, by decide, by decide, by decide,
    _, rfl, by decide, by decide, by decide, by decide⟩

/-- C4 as amended: when every attempt `0 .. MAX_RETRIES` ends in a retryable
failure, `make_request` performs exactly `MAX_RETRIES + 1` attempts and
returns `success = false` with a non-empty `error_message` and with
`status_code` the response code reported for the last attempt, converted to
`int`, whether that attempt was an HTTP failure or a transport failure. -/
theorem make_request_all_retryable_failures (w : World) (self : HttpClient)
    (url method data : String) (headers : List String)
    (hall : ∀ a, a ≤ MAX_RETRIES → (w.curl_easy_perform a).is_retryable_failure = true) :
    ∃ r, make_request w self url method data headers = .ok r ∧
      r.attempts = MAX_RETRIES + 1 ∧ perform_count r.events = MAX_RETRIES + 1 ∧
      r.response.success = false ∧ r.response.error_message ≠ "" ∧
      r.response.status_code =
        static_cast_int (w.curl_easy_perform MAX_RETRIES).http_code := by
  obtain ⟨r, e, ha, _, hs, hc, hm⟩ := make_request_all_fail w self url method data headers
    (fun a h => not_2xx_of_retryable _ (hall a h))
  refine ⟨r, e, ha, ?_, hs, ?_, hc⟩
  · rw [make_request_attempts_eq_perform_count w self url method data headers r e, ha]
  · rw [hm]; exact failure_what_ne_empty _ _

/-- Instance: every attempt answers 503. -/
theorem make_request_all_retryable_failures_witness :
    ∃ r, make_request (world_always 503) (HttpClient.init 5)
        "https://httpbin.org/status/503" "GET" "" [] = .ok r ∧
      r.attempts = MAX_RETRIES + 1 ∧ perform_count r.events = MAX_RETRIES + 1 ∧
      r.response.success = false ∧ r.response.error_message ≠ "" ∧
      r.response.status_code =
        static_cast_int ((world_always 503).curl_easy_perform MAX_RETRIES).http_code :=
  make_request_all_retryable_failures (world_always 503) (HttpClient.init 5)
    "https://httpbin.org/status/503" "GET" "" []
    (fun _ _ => show PerformResult.is_retryable_failure
      { res := CURLcode.CURLE_OK, http_code := 503, chunks := [] } = true
      by decide)

/-- C5: every response `make_request` returns satisfies exactly one of
(`success = true` and `status_code` in [200, 300)) and (`success = false` and
`error_message` non-empty). -/
theorem make_request_response_exactly_one (w : World) (self : HttpClient)
    (url method data : String) (headers : List String) :
    ∃ r, make_request w self url method data headers = .ok r ∧
      (((r.response.success = true ∧ 200 ≤ r.response.status_code ∧
            r.response.status_code < 300) ∧
          ¬ (r.response.success = false ∧ r.response.error_message ≠ "")) ∨
       (¬ (r.response.success = true ∧ 200 ≤ r.response.status_code ∧
            r.response.status_code < 300) ∧
          (r.response.success = false ∧ r.response.error_message ≠ ""))) := by
  obtain ⟨r, e, _, _, hst, hcase⟩ := loop_result w self url method data headers
    (MAX_RETRIES + 1) 0
    { response := HttpResponse.init, curl := self.curl_, attempts := 0, events := [] }
    (by omega) (by omega)
  refine ⟨r, e, ?_⟩
  rcases hcase with ⟨_, hs, h2⟩ | ⟨_, hs, _, _, hm⟩
  · obtain ⟨_, h200, h300⟩ := (is_2xx_iff _).mp h2
    rw [← hst] at h200 h300
    exact Or.inl ⟨⟨hs, h200, h300⟩, fun hc => by rw [hs] at hc; exact absurd hc.1 (by decide)⟩
  · have hf : r.response.success = false := hs
    refine Or.inr ⟨fun hc => ?_, hf, ?_⟩
    · rw [hf] at hc; exact absurd hc.1 (by decide)
    · rw [hm]; exact failure_what_ne_empty _ _

/-- C6, evaluated on the code: attempt 0 answers 503 and is retried, attempt 1
answers 200; the call returns `success = true` with the error message of
attempt 0 still in place, `"HTTP 503"`, which is not the empty string. -/
theorem make_request_success_keeps_stale_error_message :
    ∃ r, make_request world_503_then_200 (HttpClient.init 5)
        "https://httpbin.org/get" "GET" "" [] = .ok r ∧
      r.response.success = true ∧ r.response.error_message = "HTTP 503" ∧
      r.response.error_message ≠ "" :=
  ⟨_, rfl, by decide, by decide, by decide⟩

/-! ## Error message on terminal failure (C7) -/

/-- C7 fails as stated: when every attempt answers 404 the call ends in
failure, its final attempt returned a non-2xx status, and the returned
`error_message` is `"HTTP error: 404"`, not `"HTTP "` followed by the status
code. -/
theorem make_request_error_message_not_short_form :
    ∃ r, make_request (world_always 404) (HttpClient.init 5)
        "https://httpbin.org/status/404" "GET" "" [] = .ok r ∧
      r.response.success = false ∧
      ((world_always 404).curl_easy_perform (r.attempts - 1)).is_http_failure = true ∧
      r.response.error_message = "HTTP error: 404" ∧
      r.response.error_message ≠ "HTTP " ++ toString r.response.status_code :=
  ⟨_, rfl, by decide, by decide, by decide, by decide⟩

/-- C7 as amended: on terminal failure the returned `error_message` is the
`what()` text of the exception of the final attempt, `"cURL error: "`
followed by the transport error description when the final attempt was a
transport failure, and `"HTTP error: "` followed by the decimal status code
when the final attempt returned a non-2xx status. -/
theorem make_request_error_message_on_failure (w : World) (self : HttpClient)
    (url method data : String) (headers : List String) :
    ∃ r, make_request w self url method data headers = .ok r ∧
      (r.response.success = false →
        ((w.curl_easy_perform (r.attempts - 1)).is_transport_failure = true →
          r.response.error_message =
            "cURL error: " ++ w.curl_easy_strerror (w.curl_easy_perform (r.attempts - 1)).res) ∧
        ((w.curl_easy_perform (r.attempts - 1)).is_http_failure = true →
          r.response.error_message = "HTTP error: " ++ toString r.response.status_code)) := by
  obtain ⟨r, e, _, _, hst, hcase⟩ := loop_result w self url method data headers
    (MAX_RETRIES + 1) 0
    { response := HttpResponse.init, curl := self.curl_, attempts := 0, events := [] }
    (by omega) (by omega)
  refine ⟨r, e, fun hfalse => ?_⟩
  rcases hcase with ⟨_, hs, _⟩ | ⟨_, _, hn, _, hm⟩
  · rw [hs] at hfalse; exact absurd hfalse (by decide)
  · have hidx : r.attempts - 1 = MAX_RETRIES := by
      have : r.attempts = 0 + (MAX_RETRIES + 1) := hn
      omega
    have hidx2 : 0 + (r.attempts - 0) - 1 = MAX_RETRIES := by omega
    have hst2 : r.response.status_code = (w.curl_easy_perform MAX_RETRIES).status := by
      have := hst
      simp only [hidx2] at this
      exact this
    rw [hidx, hm, hst2]
    constructor
    · intro ht
      have hne : (w.curl_easy_perform MAX_RETRIES).res ≠ CURLcode.CURLE_OK := by
        simpa [PerformResult.is_transport_failure] using ht
      simp [failure_what, hne]
    · intro hh
      have heq : (w.curl_easy_perform MAX_RETRIES).res = CURLcode.CURLE_OK := by
        simp only [PerformResult.is_http_failure, Bool.and_eq_true, decide_eq_true_eq] at hh
        exact hh.1
      simp [failure_what, heq]

/-! ## Response body (C8) -/

/-- C8, evaluated on the code: attempt 0 answers 503 with the body
`"Service Unavailable"` and is retried, attempt 1 answers 200 with the body
`"ok"`; the call returns `success = true` with the body
`"Service Unavailableok"`, not the body of the successful attempt alone. -/
theorem make_request_success_body_keeps_failed_attempts :
    ∃ r, make_request world_503_then_200 (HttpClient.init 5)
        "https://httpbin.org/get" "GET" "" [] = .ok r ∧
      r.response.success = true ∧ r.attempts = 2 ∧
      deliver (world_503_then_200.curl_easy_perform 1).chunks "" = "ok" ∧
      r.response.body = "Service Unavailableok" ∧
      r.response.body ≠ deliver (world_503_then_200.curl_easy_perform 1).chunks "" :=
  ⟨_, rfl, by decide, by decide, by decide, by decide, by decide⟩

/-! ## The call returns when no library call fails -/

/-- When no library call fails, `make_request` returns a value for every
sequence of attempt outcomes. -/
theorem make_request_never_raises (w : World) (self : HttpClient)
    (url method data : String) (headers : List String) :
    (∃ r, make_request w self url method data headers = .ok r) ∧
    ∀ e, make_request w self url method data headers ≠ .error e := by
  obtain ⟨r, e, _⟩ := loop_result w self url method data headers
    (MAX_RETRIES + 1) 0
    { response := HttpResponse.init, curl := self.curl_, attempts := 0, events := [] }
    (by omega) (by omega)
  have hr : make_request w self url method data headers = .ok r := e
  refine ⟨⟨r, hr⟩, fun x hx => ?_⟩
  rw [hr] at hx
  cases hx

/-! ## Classification of HTTP status codes (C10) -/

/-- C10: for every integer status code `s`, `is_retryable_error s` is true if
and only if `s ≥ 500` or `s = 429`; in particular it is false for every `s`
in [200, 500) other than 429. -/
theorem is_retryable_error_iff (s : Int) :
    (is_retryable_error s = true ↔ (s ≥ 500 ∨ s = 429)) ∧
    (200 ≤ s → s < 500 → s ≠ 429 → is_retryable_error s = false) := by
  constructor
  · simp [is_retryable_error]
  · intro _ h2 h3
    simp only [is_retryable_error, Bool.or_eq_false_iff, decide_eq_false_iff_not]
    exact ⟨by omega, h3⟩

/-! ## Lemmas on the trace -/

/-- The configuration built for an attempt does not depend on the state the
handle was in: `curl_easy_reset` discards it. -/
theorem configure_curl_irrelevant (self : HttpClient) (curl : CurlHandle)
    (url method data : String) (headers : List String) :
    configure { self with curl_ := curl } url method data headers =
      configure self url method data headers := rfl

theorem bool_eq_false_of_ne_true {b : Bool} (h : ¬ b = true) : b = false := by
  cases b
  · rfl
  · exact absurd rfl h

/-- Events of an iteration whose attempt is a 2xx. -/
theorem loop_success_events (w : World) (self : HttpClient) (url method data : String)
    (headers : List String) (n attempt : Nat) (st : State)
    (h : (w.curl_easy_perform attempt).is_2xx = true) :
    ∃ r, make_request_loop w self url method data headers (n + 1) attempt st = .ok r ∧
      r.attempts = st.attempts + 1 ∧
      r.events = st.events ++
        attempt_events w (configure self url method data headers) url method attempt := by
  have h' := h
  simp only [PerformResult.is_2xx, PerformResult.status, Bool.and_eq_true,
    decide_eq_true_eq] at h'
  obtain ⟨⟨h1, h2⟩, h3⟩ := h'
  simp [make_request_loop, try_block, State.emit, State.finish, h1, h2, h3,
    PerformResult.status, attempt_events, h, configure_curl_irrelevant]

/-- Events of an iteration whose attempt fails before the last one. -/
theorem loop_failure_step_events (w : World) (self : HttpClient) (url method data : String)
    (headers : List String) (n attempt : Nat) (st : State)
    (h : (w.curl_easy_perform attempt).is_2xx = false) (ha : attempt < MAX_RETRIES) :
    ∃ st', make_request_loop w self url method data headers (n + 1) attempt st =
        make_request_loop w self url method data headers n (attempt + 1) st' ∧
      st'.attempts = st.attempts + 1 ∧
      st'.events = st.events ++
        attempt_events w (configure self url method data headers) url method attempt := by
  have hne : ¬ attempt = MAX_RETRIES := by omega
  have h' := h
  simp only [PerformResult.is_2xx, PerformResult.status] at h'
  by_cases h1 : (w.curl_easy_perform attempt).res = CURLcode.CURLE_OK
  · have h2 : ¬ (200 ≤ static_cast_int (w.curl_easy_perform attempt).http_code ∧
        static_cast_int (w.curl_easy_perform attempt).http_code < 300) := by
      intro hc; simp [h1, hc.1, hc.2] at h'
    by_cases hr : is_retryable_error (static_cast_int (w.curl_easy_perform attempt).http_code) = true
    · simp only [make_request_loop, try_block, State.emit, h1, h2, hr, ha,
        PerformResult.status, ne_eq, not_true_eq_false, if_false, if_true, decide_True,
        Bool.and_self]
      refine ⟨_, rfl, rfl, ?_⟩
      simp [attempt_events, attempt_throws, h, h1, hr, ha, PerformResult.status,
        configure_curl_irrelevant]
    · simp only [make_request_loop, try_block, catch_block, State.emit, h1, h2, hr, hne,
        PerformResult.status, ne_eq, not_true_eq_false, if_false, if_true, decide_True,
        Bool.and_self, Bool.false_and]
      refine ⟨_, rfl, rfl, ?_⟩
      simp [attempt_events, attempt_throws, h, h1, hr, hne, PerformResult.status,
        configure_curl_irrelevant, failure_what, ApiException.mk2]
  · by_cases hr : is_retryable_curl_error (w.curl_easy_perform attempt).res = true
    · simp only [make_request_loop, try_block, State.emit, h1, hr, ha,
        PerformResult.status, ne_eq, not_false_eq_true, if_false, if_true, decide_True,
        Bool.and_self]
      refine ⟨_, rfl, rfl, ?_⟩
      simp [attempt_events, attempt_throws, h, h1, hr, ha, PerformResult.status,
        configure_curl_irrelevant]
    · simp only [make_request_loop, try_block, catch_block, State.emit, h1, hr, hne,
        PerformResult.status, ne_eq, not_false_eq_true, if_false, if_true, decide_True,
        Bool.and_self, Bool.false_and]
      refine ⟨_, rfl, rfl, ?_⟩
      simp [attempt_events, attempt_throws, h, h1, hr, hne, PerformResult.status,
        configure_curl_irrelevant, failure_what, ApiException.mk1, ApiException.mk2]

/-- Events of the iteration with index `MAX_RETRIES` when its attempt fails. -/
theorem loop_failure_last_events (w : World) (self : HttpClient) (url method data : String)
    (headers : List String) (n : Nat) (st : State)
    (h : (w.curl_easy_perform MAX_RETRIES).is_2xx = false) :
    ∃ r, make_request_loop w self url method data headers (n + 1) MAX_RETRIES st = .ok r ∧
      r.attempts = st.attempts + 1 ∧
      r.events = st.events ++
        attempt_events w (configure self url method data headers) url method MAX_RETRIES := by
  have h' := h
  simp only [PerformResult.is_2xx, PerformResult.status] at h'
  by_cases h1 : (w.curl_easy_perform MAX_RETRIES).res = CURLcode.CURLE_OK
  · have h2 : ¬ (200 ≤ static_cast_int (w.curl_easy_perform MAX_RETRIES).http_code ∧
        static_cast_int (w.curl_easy_perform MAX_RETRIES).http_code < 300) := by
      intro hc; simp [h1, hc.1, hc.2] at h'
    simp [make_request_loop, try_block, catch_block, State.emit, State.finish, h1, h2,
      PerformResult.status, failure_what, ApiException.mk2, attempt_events, attempt_throws, h,
      configure_curl_irrelevant]
  · simp [make_request_loop, try_block, catch_block, State.emit, State.finish, h1,
      PerformResult.status, failure_what, ApiException.mk1, ApiException.mk2, attempt_events,
      attempt_throws, h, configure_curl_irrelevant]

/-- The trace of the loop is the trace of its iterations; every attempt but
the last one performed has failed with an index below `MAX_RETRIES`, and the
last one is a 2xx or has index `MAX_RETRIES`. -/
theorem loop_events (w : World) (self : HttpClient) (url method data : String)
    (headers : List String) :
    ∀ (n attempt : Nat) (st : State), n + attempt = MAX_RETRIES + 1 → 1 ≤ n →
      ∃ r, make_request_loop w self url method data headers n attempt st = .ok r ∧
        st.attempts < r.attempts ∧
        r.events = st.events ++
          trace w (configure self url method data headers) url method
            (r.attempts - st.attempts) attempt ∧
        (∀ i, attempt ≤ i → i + 1 < attempt + (r.attempts - st.attempts) →
          (w.curl_easy_perform i).is_2xx = false ∧ i < MAX_RETRIES) ∧
        ((w.curl_easy_perform (attempt + (r.attempts - st.attempts) - 1)).is_2xx = true ∨
          attempt + (r.attempts - st.attempts) - 1 = MAX_RETRIES) := by
  intro n
  induction n with
  | zero => intro attempt st _ h; omega
  | succ n ih =>
    intro attempt st hsum _
    by_cases h2 : (w.curl_easy_perform attempt).is_2xx = true
    · obtain ⟨r, e, ha, he⟩ :=
        loop_success_events w self url method data headers n attempt st h2
      have hk : r.attempts - st.attempts = 1 := by omega
      refine ⟨r, e, by omega, ?_, ?_, ?_⟩
      · rw [he, hk]; simp [trace]
      · intro i h1 h3; omega
      · left
        have hidx : attempt + (r.attempts - st.attempts) - 1 = attempt := by omega
        rw [hidx]; exact h2
    · have h2f := bool_eq_false_of_ne_true h2
      by_cases hlt : attempt < MAX_RETRIES
      · obtain ⟨st1, e1, a1, ev1⟩ :=
          loop_failure_step_events w self url method data headers n attempt st h2f hlt
        obtain ⟨r, e, hlo, hev, hpre, hlast⟩ := ih (attempt + 1) st1 (by omega) (by omega)
        have hk : r.attempts - st.attempts = (r.attempts - st1.attempts) + 1 := by omega
        have hidx : attempt + 1 + (r.attempts - st1.attempts) - 1 =
            attempt + (r.attempts - st.attempts) - 1 := by omega
        refine ⟨r, by rw [e1, e], by omega, ?_, ?_, ?_⟩
        · rw [hev, ev1, hk, trace, List.append_assoc]
        · intro i h1 h3
          by_cases hi : i = attempt
          · subst hi; exact ⟨h2f, hlt⟩
          · exact hpre i (by omega) (by omega)
        · rw [← hidx]; exact hlast
      · have hEq : attempt = MAX_RETRIES := by omega
        subst hEq
        obtain ⟨r, e, ha, he⟩ :=
          loop_failure_last_events w self url method data headers n st h2f
        have hk : r.attempts - st.attempts = 1 := by omega
        refine ⟨r, e, by omega, ?_, ?_, ?_⟩
        · rw [he, hk]; simp [trace]
        · intro i h1 h3; omega
        · right; omega

/-- The trace of a finished call, attempt by attempt. -/
theorem make_request_trace (w : World) (self : HttpClient) (url method data : String)
    (headers : List String) (r : Run)
    (h : make_request w self url method data headers = .ok r) :
    1 ≤ r.attempts ∧
    r.events = trace w (configure self url method data headers) url method r.attempts 0 ∧
    (∀ i, i + 1 < r.attempts → (w.curl_easy_perform i).is_2xx = false ∧ i < MAX_RETRIES) ∧
    ((w.curl_easy_perform (r.attempts - 1)).is_2xx = true ∨ r.attempts - 1 = MAX_RETRIES) := by
  obtain ⟨r', e, hlo, hev, hpre, hlast⟩ := loop_events w self url method data headers
    (MAX_RETRIES + 1) 0
    { response := HttpResponse.init, curl := self.curl_, attempts := 0, events := [] }
    (by omega) (by omega)
  have hr : r' = r := by
    have : Except.ok r' = (Except.ok r : Except ApiException Run) := by
      rw [← e, ← h]; rfl
    exact Except.ok.inj this
  subst hr
  simp only [Nat.sub_zero, List.nil_append, Nat.zero_add, Nat.zero_le, true_implies] at hev hpre hlast
  exact ⟨hlo, hev, hpre, hlast⟩

theorem trace_succ_right (w : World) (handle : CurlHandle) (url method : String) :
    ∀ (k a : Nat), trace w handle url method (k + 1) a =
      trace w handle url method k a ++ attempt_events w handle url method (a + k) := by
  intro k
  induction k with
  | zero => intro a; simp [trace]
  | succ k ih =>
    intro a
    rw [trace, ih (a + 1), trace, List.append_assoc]
    have : a + 1 + k = a + (k + 1) := by omega
    rw [this]

theorem perform_calls_attempt_events (w : World) (handle : CurlHandle) (url method : String)
    (a : Nat) : perform_calls (attempt_events w handle url method a) = [(a, handle)] := by
  simp only [attempt_events, perform_calls]
  split_ifs <;> simp

theorem warning_count_attempt_events (w : World) (handle : CurlHandle) (url method : String)
    (a : Nat) : warning_count (attempt_events w handle url method a) =
      if (w.curl_easy_perform a).is_http_failure then 1 else 0 := by
  simp only [attempt_events, warning_count, PerformResult.is_http_failure,
    PerformResult.is_2xx]
  by_cases h1 : (w.curl_easy_perform a).res = CURLcode.CURLE_OK <;>
    by_cases h2 : 200 ≤ (w.curl_easy_perform a).status <;>
    by_cases h3 : (w.curl_easy_perform a).status < 300 <;>
    simp [h1, h2, h3, List.countP_cons, List.countP_append, Event.is_warning] <;>
    split_ifs <;> simp [List.countP_cons, Event.is_warning]

theorem error_count_attempt_events (w : World) (handle : CurlHandle) (url method : String)
    (a : Nat) : error_count (attempt_events w handle url method a) =
      (if (w.curl_easy_perform a).is_transport_failure then 1 else 0) +
      (if attempt_throws (w.curl_easy_perform a) a then 1 else 0) := by
  by_cases h2 : (w.curl_easy_perform a).is_2xx = true
  · have h1 : (w.curl_easy_perform a).res = CURLcode.CURLE_OK := ((is_2xx_iff _).mp h2).1
    simp [attempt_events, error_count, h2, attempt_throws, PerformResult.is_transport_failure,
      h1, List.countP_cons, Event.is_error]
  · have h2f := bool_eq_false_of_ne_true h2
    by_cases hm : a = MAX_RETRIES
    · subst hm
      by_cases h1 : (w.curl_easy_perform MAX_RETRIES).res = CURLcode.CURLE_OK <;>
        by_cases ht : attempt_throws (w.curl_easy_perform MAX_RETRIES) MAX_RETRIES = true <;>
        simp [attempt_events, error_count, h2f, h1, ht, PerformResult.is_transport_failure,
          List.countP_cons, List.countP_append, Event.is_error]
    · by_cases h1 : (w.curl_easy_perform a).res = CURLcode.CURLE_OK <;>
        by_cases ht : attempt_throws (w.curl_easy_perform a) a = true <;>
        simp [attempt_events, error_count, h2f, h1, ht, hm, PerformResult.is_transport_failure,
          List.countP_cons, List.countP_append, Event.is_error]

theorem backoff_calls_attempt_events_failed (w : World) (handle : CurlHandle)
    (url method : String) (a : Nat) (h : (w.curl_easy_perform a).is_2xx = false)
    (ha : a < MAX_RETRIES) :
    backoff_calls (attempt_events w handle url method a) = [a] := by
  have hne : ¬ a = MAX_RETRIES := by omega
  by_cases h1 : (w.curl_easy_perform a).res = CURLcode.CURLE_OK <;>
    by_cases ht : attempt_throws (w.curl_easy_perform a) a = true <;>
    simp [attempt_events, backoff_calls, h, h1, ht, hne]

theorem backoff_calls_attempt_events_last (w : World) (handle : CurlHandle)
    (url method : String) (a : Nat)
    (h : (w.curl_easy_perform a).is_2xx = true ∨ a = MAX_RETRIES) :
    backoff_calls (attempt_events w handle url method a) = [] := by
  by_cases h2 : (w.curl_easy_perform a).is_2xx = true
  · simp [attempt_events, backoff_calls, h2]
  · have h2f := bool_eq_false_of_ne_true h2
    have hm : a = MAX_RETRIES := by
      rcases h with h | h
      · exact absurd h h2
      · exact h
    subst hm
    have ht : attempt_throws (w.curl_easy_perform MAX_RETRIES) MAX_RETRIES = true := by
      simp [attempt_throws, h2f]
    by_cases h1 : (w.curl_easy_perform MAX_RETRIES).res = CURLcode.CURLE_OK <;>
      simp [attempt_events, backoff_calls, h2f, h1, ht]

theorem perform_calls_trace (w : World) (handle : CurlHandle) (url method : String) :
    ∀ k, perform_calls (trace w handle url method k 0) =
      (List.range k).map fun a => (a, handle) := by
  intro k
  induction k with
  | zero => rfl
  | succ k ih =>
    have happ : ∀ l₁ l₂ : List Event,
        perform_calls (l₁ ++ l₂) = perform_calls l₁ ++ perform_calls l₂ := by
      intro l₁ l₂; simp [perform_calls, List.filterMap_append]
    rw [trace_succ_right, happ, ih, perform_calls_attempt_events, List.range_succ,
      List.map_append]
    simp

theorem warning_count_trace (w : World) (handle : CurlHandle) (url method : String) :
    ∀ k, warning_count (trace w handle url method k 0) = http_failures w k := by
  intro k
  induction k with
  | zero => rfl
  | succ k ih =>
    have happ : ∀ l₁ l₂ : List Event,
        warning_count (l₁ ++ l₂) = warning_count l₁ + warning_count l₂ := by
      intro l₁ l₂; simp [warning_count, List.countP_append]
    rw [trace_succ_right, happ, ih, warning_count_attempt_events]
    simp only [http_failures, List.range_succ, List.countP_append, List.countP_cons,
      List.countP_nil, Nat.zero_add]

theorem error_count_trace (w : World) (handle : CurlHandle) (url method : String) :
    ∀ k, error_count (trace w handle url method k 0) =
      transport_failures w k + thrown_exceptions w k := by
  intro k
  induction k with
  | zero => rfl
  | succ k ih =>
    have happ : ∀ l₁ l₂ : List Event,
        error_count (l₁ ++ l₂) = error_count l₁ + error_count l₂ := by
      intro l₁ l₂; simp [error_count, List.countP_append]
    rw [trace_succ_right, happ, ih, error_count_attempt_events]
    simp only [transport_failures, thrown_exceptions, List.range_succ, List.countP_append,
      List.countP_cons, List.countP_nil, Nat.zero_add]
    omega

theorem backoff_calls_append (l₁ l₂ : List Event) :
    backoff_calls (l₁ ++ l₂) = backoff_calls l₁ ++ backoff_calls l₂ := by
  simp [backoff_calls, List.filterMap_append]

theorem backoff_calls_trace (w : World) (handle : CurlHandle) (url method : String) :
    ∀ k, (∀ i, i < k → (w.curl_easy_perform i).is_2xx = false ∧ i < MAX_RETRIES) →
      backoff_calls (trace w handle url method k 0) = List.range k := by
  intro k
  induction k with
  | zero => intro _; rfl
  | succ k ih =>
    intro h
    rw [trace_succ_right, backoff_calls_append, ih (fun i hi => h i (by omega)),
      Nat.zero_add,
      backoff_calls_attempt_events_failed w handle url method k (h k (by omega)).1
        (h k (by omega)).2,
      List.range_succ]

/-- The `exponential_backoff` calls of a finished call: one after each attempt
but the last, with the index of that attempt. -/
theorem make_request_backoff_calls (w : World) (self : HttpClient) (url method data : String)
    (headers : List String) (r : Run)
    (h : make_request w self url method data headers = .ok r) :
    backoff_calls r.events = List.range (r.attempts - 1) := by
  obtain ⟨h1, hev, hpre, hlast⟩ := make_request_trace w self url method data headers r h
  obtain ⟨m, hm⟩ : ∃ m, r.attempts = m + 1 := ⟨r.attempts - 1, by omega⟩
  rw [hev, hm, trace_succ_right, backoff_calls_append,
    backoff_calls_trace _ _ _ _ m (fun i hi => hpre i (by omega)), Nat.zero_add]
  have hl : (w.curl_easy_perform m).is_2xx = true ∨ m = MAX_RETRIES := by
    have : r.attempts - 1 = m := by omega
    rw [this] at hlast; exact hlast
  rw [backoff_calls_attempt_events_last _ _ _ _ m hl]
  simp

/-- The `curl_easy_perform` calls of a finished call: one per attempt, each
with the configuration built from the arguments of the call. -/
theorem make_request_perform_calls (w : World) (self : HttpClient) (url method data : String)
    (headers : List String) (r : Run)
    (h : make_request w self url method data headers = .ok r) :
    perform_calls r.events =
      (List.range r.attempts).map fun a =>
        (a, configure { curl_ := CurlHandle.fresh, timeout_seconds_ := self.timeout_seconds_ }
              url method data headers) := by
  obtain ⟨_, hev, _, _⟩ := make_request_trace w self url method data headers r h
  rw [hev, perform_calls_trace]
  rfl

/-- Existence of the result, with what `loop_result` says about it. -/
theorem make_request_returns (w : World) (self : HttpClient) (url method data : String)
    (headers : List String) :
    ∃ r, make_request w self url method data headers = .ok r ∧ 1 ≤ r.attempts ∧
      r.attempts ≤ MAX_RETRIES + 1 ∧
      r.response.status_code = (w.curl_easy_perform (r.attempts - 1)).status := by
  obtain ⟨r, e, hlo, hhi, hst, _⟩ := loop_result w self url method data headers
    (MAX_RETRIES + 1) 0
    { response := HttpResponse.init, curl := self.curl_, attempts := 0, events := [] }
    (by omega) (by omega)
  refine ⟨r, e, ?_, ?_, ?_⟩
  · exact hlo
  · simpa using hhi
  · simpa using hst

theorem foldl_curl_slist_append_some (headers acc : List String) :
    headers.foldl curl_slist_append (some acc) = some (acc ++ headers) := by
  induction headers generalizing acc with
  | nil => simp
  | cons x xs ih => simp [List.foldl_cons, curl_slist_append, ih]

theorem foldl_curl_slist_append_none (headers : List String) :
    headers.foldl curl_slist_append none = if headers = [] then none else some headers := by
  cases headers with
  | nil => rfl
  | cons x xs => simp [List.foldl_cons, curl_slist_append, foldl_curl_slist_append_some]

/-- The body and header options of the configuration built for an attempt. -/
theorem configure_postfields_httpheader (self : HttpClient) (url method data : String)
    (headers : List String) :
    (configure self url method data headers).postfields =
        (if data = "" then none else some data) ∧
    (configure self url method data headers).httpheader =
        (if headers = [] then none else some headers) := by
  unfold configure
  simp only [foldl_curl_slist_append_none]
  by_cases hd : data = "" <;> by_cases hh : headers = [] <;>
    simp [hd, hh, curl_easy_reset, setup_common_options] <;> split_ifs <;> simp

/-- The common options, the URL and the method options of the configuration
built for an attempt. -/
theorem configure_baseline (self : HttpClient) (url method data : String)
    (headers : List String) :
    (configure self url method data headers).timeout = some self.timeout_seconds_ ∧
    (configure self url method data headers).connecttimeout = some 10 ∧
    (configure self url method data headers).followlocation = some 1 ∧
    (configure self url method data headers).maxredirs = some 3 ∧
    (configure self url method data headers).ssl_verifypeer = some 1 ∧
    (configure self url method data headers).ssl_verifyhost = some 2 ∧
    (configure self url method data headers).url = some url ∧
    (configure self url method data headers).post =
        (if method = "POST" then some 1 else none) ∧
    (configure self url method data headers).customrequest =
        (if method = "POST" then none else if method = "PUT" then some "PUT"
         else if method = "DELETE" then some "DELETE" else none) := by
  unfold configure
  simp only [foldl_curl_slist_append_none]
  by_cases hd : data = "" <;> by_cases hh : headers = [] <;>
    by_cases h1 : method = "POST" <;> by_cases h2 : method = "PUT" <;>
    by_cases h3 : method = "DELETE" <;>
    simp [hd, hh, h1, h2, h3, curl_easy_reset, setup_common_options]

/-! ## Lemmas on `exponential_backoff` -/

/-- Truncated product of an even base `2 * c` with a factor in [1/2, 3/2). -/
theorem apply_jitter_bounds (c : Int) (hc : 0 < c) (j : Jitter) (hj : j.in_range) :
    c ≤ apply_jitter (2 * c) j ∧ apply_jitter (2 * c) j < 3 * c := by
  obtain ⟨hd, hlo, hhi⟩ := hj
  have hnum : 0 < j.num := by omega
  have hn : 0 ≤ 2 * c * j.num := by positivity
  unfold apply_jitter
  rw [Int.tdiv_eq_ediv hn (le_of_lt hd)]
  constructor
  · apply Int.le_ediv_of_mul_le hd
    nlinarith [mul_le_mul_of_nonneg_left hlo (le_of_lt hc)]
  · apply Int.ediv_lt_of_lt_mul hd
    nlinarith [mul_lt_mul_of_pos_left hhi hc]

theorem backoff_base_one : backoff_base 1 = 1000 := by decide

theorem backoff_base_two : backoff_base 2 = 2000 := by decide

theorem exponential_backoff_zero (j : Jitter) : exponential_backoff 0 j = none := rfl

theorem exponential_backoff_one (j : Jitter) :
    exponential_backoff 1 j = some
      { message := "Retrying in " ++ toString (apply_jitter 1000 j) ++ "ms (attempt " ++
          toString (static_cast_int (1 + 1)) ++ ")",
        sleep_ms := apply_jitter 1000 j } := by
  simp [exponential_backoff, backoff_base_one]

theorem exponential_backoff_two (j : Jitter) :
    exponential_backoff 2 j = some
      { message := "Retrying in " ++ toString (apply_jitter 2000 j) ++ "ms (attempt " ++
          toString (static_cast_int (2 + 1)) ++ ")",
        sleep_ms := apply_jitter 2000 j } := by
  simp [exponential_backoff, backoff_base_two]

theorem exponential_backoff_one_sleep (j : Jitter) :
    (exponential_backoff 1 j).map BackoffEffect.sleep_ms = some (apply_jitter 1000 j) := by
  simp [exponential_backoff, backoff_base_one]

theorem exponential_backoff_two_sleep (j : Jitter) :
    (exponential_backoff 2 j).map BackoffEffect.sleep_ms = some (apply_jitter 2000 j) := by
  simp [exponential_backoff, backoff_base_two]

/-! ## Classification of transport errors (C11) -/

/-- C11: for every transport error code `c`, `is_retryable_curl_error c` is
true if and only if `c` is one of `COULDNT_CONNECT`, `COULDNT_RESOLVE_HOST`,
`OPERATION_TIMEDOUT`, `SSL_CONNECT_ERROR`, `GOT_NOTHING`, `SEND_ERROR`,
`RECV_ERROR`; `OK`, `UNSUPPORTED_PROTOCOL`, `URL_MALFORMAT` and every code the
source does not name are non-retryable. -/
theorem is_retryable_curl_error_iff (c : CURLcode) :
    (is_retryable_curl_error c = true ↔
      (c = CURLcode.CURLE_COULDNT_CONNECT ∨ c = CURLcode.CURLE_COULDNT_RESOLVE_HOST ∨
       c = CURLcode.CURLE_OPERATION_TIMEDOUT ∨ c = CURLcode.CURLE_SSL_CONNECT_ERROR ∨
       c = CURLcode.CURLE_GOT_NOTHING ∨ c = CURLcode.CURLE_SEND_ERROR ∨
       c = CURLcode.CURLE_RECV_ERROR)) ∧
    is_retryable_curl_error CURLcode.CURLE_OK = false ∧
    is_retryable_curl_error CURLcode.CURLE_UNSUPPORTED_PROTOCOL = false ∧
    is_retryable_curl_error CURLcode.CURLE_URL_MALFORMAT = false ∧
    (∀ n, is_retryable_curl_error (CURLcode.other n) = false) := by
  refine ⟨?_, rfl, rfl, rfl, fun _ => rfl⟩
  cases c <;> simp [is_retryable_curl_error]

/-! ## Backoff delay (C12) -/

/-- C12, evaluated on the code: for `attempt = 23` the product
`INITIAL_BACKOFF_MS * (1 << 22)` is 4194304000, which in 32-bit `int`
arithmetic is -100663296; `std::min` keeps it, so with the factor 1.0 (in
[0.5, 1.5)) the call sleeps -100663296 ms, below the lower bound
`0.5 * min(1000 * 2^22, 10000) = 5000` of the claim. -/
theorem exponential_backoff_overflows_at_23 :
    (1 : Int) ≤ 23 ∧ (jitter_one 0).in_range ∧
    INITIAL_BACKOFF_MS * 2 ^ 22 = 4194304000 ∧
    backoff_base 23 = -100663296 ∧
    exponential_backoff 23 (jitter_one 0) =
      some { message := "Retrying in -100663296ms (attempt 24)", sleep_ms := -100663296 } ∧
    ¬ (min (1000 * 2 ^ (23 - 1)) 10000 ≤ 2 * (-100663296 : Int)) := by
  refine ⟨by decide, by decide, by decide, by decide, by decide, by decide⟩

/-- For `1 ≤ attempt ≤ 22` nothing overflows: the first value of `backoff_ms`
is the exact `min(1000 * 2^(attempt-1), 10000)`, a positive even number. -/
theorem backoff_base_exact (attempt : Int) (h1 : 1 ≤ attempt) (h22 : attempt ≤ 22) :
    backoff_base attempt = min (1000 * 2 ^ (attempt - 1).toNat) 10000 ∧
    ∃ c, 0 < c ∧ backoff_base attempt = 2 * c := by
  have h : backoff_base attempt = min (1000 * 2 ^ (attempt - 1).toNat) 10000 ∧
      0 < min (500 * 2 ^ (attempt - 1).toNat) (5000 : Int) ∧
      backoff_base attempt = 2 * min (500 * 2 ^ (attempt - 1).toNat) 5000 := by
    interval_cases attempt <;> decide
  exact ⟨h.1, _, h.2.1, h.2.2⟩

/-- Inside the range without overflow: for every `attempt` with
`1 ≤ attempt ≤ 22` and every jitter factor in [0.5, 1.5),
`exponential_backoff` sleeps a delay with
`0.5 * B ≤ delay < 1.5 * B`, where `B = min(1000 * 2^(attempt-1), 10000)`;
the two bounds are stated doubled, `B ≤ 2 * delay < 3 * B`. -/
theorem exponential_backoff_delay_bounds (attempt : Int) (j : Jitter)
    (h1 : 1 ≤ attempt) (h22 : attempt ≤ 22) (hj : j.in_range) :
    ∃ e, exponential_backoff attempt j = some e ∧
      min (1000 * 2 ^ (attempt - 1).toNat) 10000 ≤ 2 * e.sleep_ms ∧
      2 * e.sleep_ms < 3 * min (1000 * 2 ^ (attempt - 1).toNat) 10000 := by
  obtain ⟨hb, c, hc, hbc⟩ := backoff_base_exact attempt h1 h22
  have hne : ¬ attempt = 0 := by omega
  obtain ⟨hlo, hhi⟩ := apply_jitter_bounds c hc j hj
  have he : exponential_backoff attempt j = some
      { message := "Retrying in " ++ toString (apply_jitter (backoff_base attempt) j) ++
          "ms (attempt " ++ toString (static_cast_int (attempt + 1)) ++ ")",
        sleep_ms := apply_jitter (backoff_base attempt) j } := by
    simp only [exponential_backoff, hne, if_false]
  refine ⟨_, he, ?_, ?_⟩
  · show min (1000 * 2 ^ (attempt - 1).toNat) 10000 ≤ 2 * apply_jitter (backoff_base attempt) j
    rw [← hb, hbc]; omega
  · show 2 * apply_jitter (backoff_base attempt) j < 3 * min (1000 * 2 ^ (attempt - 1).toNat) 10000
    rw [← hb, hbc]; omega

/-- Instance: `exponential_backoff(1)` with the factor 1.0. -/
theorem exponential_backoff_delay_bounds_witness :
    ∃ e, exponential_backoff 1 (jitter_one 0) = some e ∧
      min (1000 * 2 ^ ((1 : Int) - 1).toNat) 10000 ≤ 2 * e.sleep_ms ∧
      2 * e.sleep_ms < 3 * min (1000 * 2 ^ ((1 : Int) - 1).toNat) 10000 :=
  exponential_backoff_delay_bounds 1 (jitter_one 0) (by decide) (by decide) (by decide)

/-! ## Waits of the retry loop (C13, C14) -/

/-- C13 fails as stated: for the outcomes 503, 503, 200 and the factor 1.0
there are 3 attempts, but the backoff call after attempt 0 gets `attempt = 0`
and returns without sleeping; the only sleep, 1000 ms, follows attempt 1. -/
theorem make_request_first_retry_not_delayed :
    ∃ r, make_request world_503_503_200 (HttpClient.init 5)
        "https://httpbin.org/status/503" "GET" "" [] = .ok r ∧
      r.attempts = 3 ∧ backoff_calls r.events = [0, 1] ∧
      sleep_schedule jitter_one r.events = [none, some 1000] :=
  ⟨_, rfl, by decide, by decide, by decide⟩

/-- C13 as amended: the backoff call after a failed attempt `a` passes `a`;
with the defaults it does not sleep after attempt 0, sleeps a delay in
[500, 1500) ms after attempt 1 and in [1000, 3000) ms after attempt 2; so
when attempts 0 and 1 fail and attempt 2 is a 2xx there are exactly 3 attempts
and a single sleep, in [500, 1500) ms, after attempt 1. -/
theorem make_request_wait_schedule (w : World) (self : HttpClient)
    (url method data : String) (headers : List String) (jitter : Nat → Jitter)
    (hj : ∀ k, (jitter k).in_range) :
    ∃ r, make_request w self url method data headers = .ok r ∧
      backoff_calls r.events = List.range (r.attempts - 1) ∧
      (∀ k, exponential_backoff 0 (jitter k) = none ∧
        (∃ e, exponential_backoff 1 (jitter k) = some e ∧
          500 ≤ e.sleep_ms ∧ e.sleep_ms < 1500) ∧
        (∃ e, exponential_backoff 2 (jitter k) = some e ∧
          1000 ≤ e.sleep_ms ∧ e.sleep_ms < 3000)) ∧
      ((w.curl_easy_perform 0).is_2xx = false ∧ (w.curl_easy_perform 1).is_2xx = false ∧
          (w.curl_easy_perform 2).is_2xx = true →
        r.attempts = 3 ∧
        ∃ d, sleep_schedule jitter r.events = [none, some d] ∧ 500 ≤ d ∧ d < 1500) := by
  obtain ⟨r, e, h1, _, _⟩ := make_request_returns w self url method data headers
  have hb := make_request_backoff_calls w self url method data headers r e
  obtain ⟨_, _, hpre, hlast⟩ := make_request_trace w self url method data headers r e
  refine ⟨r, e, hb, ?_, ?_⟩
  · intro k
    refine ⟨rfl, ?_, ?_⟩
    · have hb1 := apply_jitter_bounds 500 (by decide) (jitter k) (hj k)
      rw [show (2 : Int) * 500 = 1000 from rfl] at hb1
      exact ⟨_, exponential_backoff_one (jitter k), hb1.1, hb1.2⟩
    · have hb2 := apply_jitter_bounds 1000 (by decide) (jitter k) (hj k)
      rw [show (2 : Int) * 1000 = 2000 from rfl] at hb2
      exact ⟨_, exponential_backoff_two (jitter k), hb2.1, hb2.2⟩
  · rintro ⟨f0, f1, s2⟩
    have hM : MAX_RETRIES = 3 := rfl
    have h3 : r.attempts = 3 := by
      by_contra hne
      rcases Nat.lt_or_gt_of_ne hne with hlt | hgt
      · have hcases : r.attempts = 1 ∨ r.attempts = 2 := by omega
        rcases hcases with h | h
        · rw [h] at hlast
          rcases hlast with hl | hl
          · rw [show (1 : Nat) - 1 = 0 from rfl, f0] at hl; cases hl
          · omega
        · rw [h] at hlast
          rcases hlast with hl | hl
          · rw [show (2 : Nat) - 1 = 1 from rfl, f1] at hl; cases hl
          · omega
      · have := (hpre 2 (by omega)).1
        rw [s2] at this; cases this
    refine ⟨h3, apply_jitter 1000 (jitter 1), ?_, ?_⟩
    · rw [h3] at hb
      have hb2 : backoff_calls r.events = [0, 1] := by rw [hb]; rfl
      simp only [sleep_schedule, hb2, List.enum, List.enumFrom, List.map_cons, List.map_nil,
        Nat.cast_zero, Nat.cast_one, exponential_backoff_zero, Option.map_none',
        exponential_backoff_one_sleep]
    · have hb1 := apply_jitter_bounds 500 (by decide) (jitter 1) (hj 1)
      rw [show (2 : Int) * 500 = 1000 from rfl] at hb1
      exact hb1

/-- Instance: the outcomes 503, 503, 200 with the factor 1.0 at every draw. -/
theorem make_request_wait_schedule_witness :
    ∃ r, make_request world_503_503_200 (HttpClient.init 5)
        "https://httpbin.org/status/503" "GET" "" [] = .ok r ∧
      backoff_calls r.events = List.range (r.attempts - 1) ∧
      (∀ k, exponential_backoff 0 (jitter_one k) = none ∧
        (∃ e, exponential_backoff 1 (jitter_one k) = some e ∧
          500 ≤ e.sleep_ms ∧ e.sleep_ms < 1500) ∧
        (∃ e, exponential_backoff 2 (jitter_one k) = some e ∧
          1000 ≤ e.sleep_ms ∧ e.sleep_ms < 3000)) ∧
      ((world_503_503_200.curl_easy_perform 0).is_2xx = false ∧
          (world_503_503_200.curl_easy_perform 1).is_2xx = false ∧
          (world_503_503_200.curl_easy_perform 2).is_2xx = true →
        r.attempts = 3 ∧
        ∃ d, sleep_schedule jitter_one r.events = [none, some d] ∧ 500 ≤ d ∧ d < 1500) :=
  make_request_wait_schedule world_503_503_200 (HttpClient.init 5)
    "https://httpbin.org/status/503" "GET" "" [] jitter_one
    (fun _ => show Jitter.in_range { num := 1, den := 1 } by decide)

/-- C14 fails as stated: when attempt 0 answers 503 and attempt 1 answers 200,
the retry loop calls `exponential_backoff` with `attempt = 0`. -/
theorem make_request_calls_backoff_with_zero :
    ∃ r, make_request world_503_then_200 (HttpClient.init 5)
        "https://httpbin.org/get" "GET" "" [] = .ok r ∧
      Event.exponential_backoff 0 ∈ r.events ∧ backoff_calls r.events = [0] :=
  ⟨_, rfl, by decide, by decide⟩

/-- C14 as amended: every backoff call of the retry loop passes the index of
the attempt that has just failed, so the arguments are `0, 1, ..` up to the
last attempt but one and all lie below `MAX_RETRIES`; the call with
`attempt = 0` is made whenever attempt 0 fails, and it returns without
sleeping. -/
theorem make_request_backoff_arguments (w : World) (self : HttpClient)
    (url method data : String) (headers : List String) :
    ∃ r, make_request w self url method data headers = .ok r ∧
      backoff_calls r.events = List.range (r.attempts - 1) ∧
      (∀ a, a ∈ backoff_calls r.events → a < MAX_RETRIES) ∧
      ((w.curl_easy_perform 0).is_2xx = false → 0 ∈ backoff_calls r.events) ∧
      (∀ j, exponential_backoff 0 j = none) := by
  obtain ⟨r, e, h1, hmax, _⟩ := make_request_returns w self url method data headers
  have hb := make_request_backoff_calls w self url method data headers r e
  obtain ⟨_, _, _, hlast⟩ := make_request_trace w self url method data headers r e
  refine ⟨r, e, hb, ?_, ?_, fun _ => rfl⟩
  · intro a ha
    rw [hb, List.mem_range] at ha
    omega
  · intro hf
    rw [hb, List.mem_range]
    by_contra hn
    have h1' : r.attempts = 1 := by omega
    rw [h1'] at hlast
    rcases hlast with hl | hl
    · rw [show (1 : Nat) - 1 = 0 from rfl, hf] at hl; cases hl
    · have hM : MAX_RETRIES = 3 := rfl
      omega

/-! ## Status code of the response (C15) -/

/-- C15: the `status_code` of the returned response is the response code that
the last attempt performed reports, converted to `int`: the HTTP status that
attempt obtained, and 0 when it obtained none; no earlier attempt enters. -/
theorem make_request_status_code_of_last_attempt (w : World) (self : HttpClient)
    (url method data : String) (headers : List String) :
    ∃ r, make_request w self url method data headers = .ok r ∧
      1 ≤ r.attempts ∧ perform_count r.events = r.attempts ∧
      r.response.status_code =
        static_cast_int (w.curl_easy_perform (r.attempts - 1)).http_code ∧
      ((w.curl_easy_perform (r.attempts - 1)).http_code = 0 → r.response.status_code = 0) := by
  obtain ⟨r, e, h1, _, hst⟩ := make_request_returns w self url method data headers
  refine ⟨r, e, h1, make_request_attempts_eq_perform_count w self url method data headers r e,
    hst, ?_⟩
  intro h0
  rw [hst, PerformResult.status, h0]
  rfl

/-! ## `WriteCallback` (C16) and `ApiException` (C17) -/

/-- C16: for every buffer content `b` and every chunk `c` of `size * nmemb`
bytes, `WriteCallback` returns `size * nmemb` and leaves the buffer equal to
`b` followed by `c`; when `size * nmemb` is 0 the buffer is unchanged and the
result is 0, whatever `contents` points at. -/
theorem WriteCallback_appends (b : String) (size nmemb : Nat) :
    (∀ c : List Char, c.length = size * nmemb →
      WriteCallback c size nmemb b = (size * nmemb, b ++ String.mk c)) ∧
    (∀ contents : List Char, size * nmemb = 0 →
      WriteCallback contents size nmemb b = (0, b)) := by
  constructor
  · intro c hc
    simp only [WriteCallback, ← hc, List.take_length]
  · intro contents h0
    simp only [WriteCallback, h0, List.take_zero]
    have : b ++ String.mk [] = b := by
      cases b with
      | mk l => show String.mk (l ++ []) = String.mk l; rw [List.append_nil]
    rw [this]

/-- C17: for every message `m` and every status code `s`,
`ApiException(m, s)` has `what() = m` and `get_status_code() = s`; without a
status code `get_status_code()` is 0; a copy has the same message and status
code. -/
theorem ApiException_accessors (m : String) (s : Int) :
    (ApiException.mk2 m s).what = m ∧ (ApiException.mk2 m s).get_status_code = s ∧
    (ApiException.mk1 m).what = m ∧ (ApiException.mk1 m).get_status_code = 0 ∧
    (ApiException.mk2 m s).copy.what = m ∧ (ApiException.mk2 m s).copy.get_status_code = s ∧
    (∀ e : ApiException, e.copy.what = e.what ∧
      e.copy.get_status_code = e.get_status_code ∧ e.copy = e) := by
  refine ⟨rfl, rfl, rfl, rfl, rfl, rfl, fun e => ⟨rfl, rfl, rfl⟩⟩

/-! ## Log events (C18) -/

/-- C18 fails as stated: when the host name never resolves, the call takes 3
retry decisions and emits no warning at all, and it emits 5 error-level
events although none of its failures is non-retryable. -/
theorem make_request_transport_retries_log_errors :
    ∃ r, make_request (world_transport_failure CURLcode.CURLE_COULDNT_RESOLVE_HOST)
        (HttpClient.init 5) "https://invalid-domain-that-does-not-exist-12345.com"
        "GET" "" [] = .ok r ∧
      r.attempts - 1 = 3 ∧ warning_count r.events = 0 ∧ error_count r.events = 5 ∧
      non_retryable_failures
        (world_transport_failure CURLcode.CURLE_COULDNT_RESOLVE_HOST) r.attempts = 0 :=
  ⟨_, rfl, by decide, by decide, by decide, by decide⟩

/-- C18 as amended: the number of warning-level events of a call equals the
number of its attempts that returned a non-2xx HTTP status, retried or not
(a transport failure emits no warning); the number of error-level events is
the number of transport failures plus the number of exceptions the handler
catches, one for each non-retryable failure and for each failure of the
attempt with index `MAX_RETRIES`. -/
theorem make_request_log_counts (w : World) (self : HttpClient)
    (url method data : String) (headers : List String) :
    ∃ r, make_request w self url method data headers = .ok r ∧
      warning_count r.events = http_failures w r.attempts ∧
      error_count r.events =
        transport_failures w r.attempts + thrown_exceptions w r.attempts := by
  obtain ⟨r, e, _, _, _⟩ := make_request_returns w self url method data headers
  obtain ⟨_, hev, _, _⟩ := make_request_trace w self url method data headers r e
  refine ⟨r, e, ?_, ?_⟩
  · rw [hev, warning_count_trace]
  · rw [hev, error_count_trace]

/-! ## Transport configuration of an attempt (C19, C20) -/

/-- C19: every attempt of one call is issued with the same configuration, the
one `configure` builds on a handle without options from
(url, method, data, headers, timeout_seconds): timeout `timeout_seconds`,
connect timeout 10, follow redirects on, at most 3 redirects, peer and host
verification on, then the URL and the method options. -/
theorem make_request_same_configuration (w : World) (self : HttpClient)
    (url method data : String) (headers : List String) :
    ∃ r, make_request w self url method data headers = .ok r ∧
      perform_calls r.events =
        (List.range r.attempts).map (fun a =>
          (a, configure { curl_ := CurlHandle.fresh, timeout_seconds_ := self.timeout_seconds_ }
                url method data headers)) ∧
      (∀ p, p ∈ perform_calls r.events →
        p.2.timeout = some self.timeout_seconds_ ∧ p.2.connecttimeout = some 10 ∧
        p.2.followlocation = some 1 ∧ p.2.maxredirs = some 3 ∧
        p.2.ssl_verifypeer = some 1 ∧ p.2.ssl_verifyhost = some 2 ∧
        p.2.url = some url ∧
        p.2.post = (if method = "POST" then some 1 else none) ∧
        p.2.customrequest =
          (if method = "POST" then none else if method = "PUT" then some "PUT"
           else if method = "DELETE" then some "DELETE" else none)) := by
  obtain ⟨r, e, _, _, _⟩ := make_request_returns w self url method data headers
  have hp := make_request_perform_calls w self url method data headers r e
  refine ⟨r, e, hp, ?_⟩
  intro p hmem
  rw [hp, List.mem_map] at hmem
  obtain ⟨a, _, rfl⟩ := hmem
  exact configure_baseline
    { curl_ := CurlHandle.fresh, timeout_seconds_ := self.timeout_seconds_ }
    url method data headers

/-- C20: in the configuration of every attempt a request body is set if and
only if `data` is non-empty, and then it is `data`; a header list is set if
and only if `headers` is non-empty, and then it is `headers` itself, in order
and with duplicates.  A GET with empty data and no headers sets neither, nor a
method option. -/
theorem make_request_body_and_headers (w : World) (self : HttpClient)
    (url method data : String) (headers : List String) :
    (∃ r, make_request w self url method data headers = .ok r ∧
      perform_calls r.events ≠ [] ∧
      ∀ p, p ∈ perform_calls r.events →
        (p.2.postfields.isSome = true ↔ data ≠ "") ∧
        (p.2.httpheader.isSome = true ↔ headers ≠ []) ∧
        p.2.postfields = (if data = "" then none else some data) ∧
        p.2.httpheader = (if headers = [] then none else some headers)) ∧
    (configure self url "GET" "" []).postfields = none ∧
    (configure self url "GET" "" []).httpheader = none ∧
    (configure self url "GET" "" []).post = none ∧
    (configure self url "GET" "" []).customrequest = none := by
  refine ⟨?_, rfl, rfl, rfl, rfl⟩
  obtain ⟨r, e, h1, _, _⟩ := make_request_returns w self url method data headers
  have hp := make_request_perform_calls w self url method data headers r e
  refine ⟨r, e, ?_, ?_⟩
  · rw [hp]
    intro hnil
    have hlen := congrArg List.length hnil
    simp only [List.length_map, List.length_range, List.length_nil] at hlen
    omega
  · intro p hmem
    rw [hp, List.mem_map] at hmem
    obtain ⟨a, _, rfl⟩ := hmem
    obtain ⟨hpf, hhh⟩ := configure_postfields_httpheader
      { curl_ := CurlHandle.fresh, timeout_seconds_ := self.timeout_seconds_ }
      url method data headers
    refine ⟨?_, ?_, hpf, hhh⟩
    · show (configure _ url method data headers).postfields.isSome = true ↔ data ≠ ""
      rw [hpf]
      by_cases hd : data = "" <;> simp [hd]
    · show (configure _ url method data headers).httpheader.isSome = true ↔ headers ≠ []
      rw [hhh]
      by_cases hh : headers = [] <;> simp [hh]

/-! ## Lemmas on the simpler loop -/

theorem HttpResponse_ext (x y : HttpResponse) (h1 : x.status_code = y.status_code)
    (h2 : x.body = y.body) (h3 : x.error_message = y.error_message)
    (h4 : x.success = y.success) : x = y := by
  cases x; cases y; simp_all

/-- The loop of `make_request` and the simpler loop agree on the response and
on the number of attempts. -/
theorem loop_eq_simple (w : World) (self : HttpClient) (url method data : String)
    (headers : List String) :
    ∀ (n attempt : Nat) (st : State), n + attempt = MAX_RETRIES + 1 → 1 ≤ n →
      ∃ r, make_request_loop w self url method data headers n attempt st = .ok r ∧
        r.response = (simple_retry_loop w n attempt st.response).response ∧
        r.attempts = st.attempts + (simple_retry_loop w n attempt st.response).attempts := by
  intro n
  induction n with
  | zero => intro attempt st _ h; omega
  | succ n ih =>
    intro attempt st hsum _
    by_cases h2 : (w.curl_easy_perform attempt).is_2xx = true
    · obtain ⟨r, e, ha, _, hr⟩ := loop_success w self url method data headers n attempt st h2
      refine ⟨r, e, ?_, ?_⟩
      · rw [hr]; simp [simple_retry_loop, h2]
      · rw [ha]; simp [simple_retry_loop, h2]
    · have h2f := bool_eq_false_of_ne_true h2
      by_cases hlt : attempt < MAX_RETRIES
      · obtain ⟨st1, e1, a1, s1, c1, b1, m1⟩ :=
          loop_failure_step w self url method data headers n attempt st h2f hlt
        obtain ⟨r, e, hresp, hatt⟩ := ih (attempt + 1) st1 (by omega) (by omega)
        have hst1 : st1.response =
            { status_code := (w.curl_easy_perform attempt).status,
              body := deliver (w.curl_easy_perform attempt).chunks st.response.body,
              error_message :=
                if (w.curl_easy_perform attempt).res ≠ CURLcode.CURLE_OK
                then w.curl_easy_strerror (w.curl_easy_perform attempt).res
                else "HTTP " ++ toString (w.curl_easy_perform attempt).status,
              success := st.response.success } :=
          HttpResponse_ext _ _ c1 b1 m1 s1
        refine ⟨r, by rw [e1, e], ?_, ?_⟩
        · rw [hresp, hst1]; simp [simple_retry_loop, h2f, hlt]
        · rw [hatt, hst1, a1]; simp [simple_retry_loop, h2f, hlt]; omega
      · have hEq : attempt = MAX_RETRIES := by omega
        subst hEq
        obtain ⟨r, e, ha, _, hr⟩ :=
          loop_failure_last w self url method data headers n st h2f
        refine ⟨r, e, ?_, ?_⟩
        · rw [hr]; simp [simple_retry_loop, h2f]
        · rw [ha]; simp [simple_retry_loop, h2f]

/-- The result of `make_request` against the simpler loop. -/
theorem make_request_eq_simple (w : World) (self : HttpClient) (url method data : String)
    (headers : List String) (r : Run)
    (h : make_request w self url method data headers = .ok r) :
    r.response = (simple_make_request w).response ∧
    r.attempts = (simple_make_request w).attempts := by
  obtain ⟨r', e, hresp, hatt⟩ := loop_eq_simple w self url method data headers
    (MAX_RETRIES + 1) 0
    { response := HttpResponse.init, curl := self.curl_, attempts := 0, events := [] }
    (by omega) (by omega)
  have hr : r' = r := by
    have : Except.ok r' = (Except.ok r : Except ApiException Run) := by
      rw [← e, ← h]; rfl
    exact Except.ok.inj this
  subst hr
  exact ⟨hresp, by simpa using hatt⟩

theorem foldl_string_append (cs : List String) :
    ∀ acc : String, cs.foldl (fun r s => r ++ s) acc =
      acc ++ cs.foldl (fun r s => r ++ s) "" := by
  induction cs with
  | nil => intro acc; simp
  | cons c cs ih =>
    intro acc
    rw [List.foldl_cons, List.foldl_cons, ih (acc ++ c), ih ("" ++ c), String.empty_append,
      String.append_assoc]

theorem string_join_cons (c : String) (cs : List String) :
    String.join (c :: cs) = c ++ String.join cs := by
  unfold String.join
  rw [List.foldl_cons, foldl_string_append cs ("" ++ c), String.empty_append]

theorem string_join_nil : String.join [] = "" := rfl

/-- What `curl_easy_perform` leaves in the buffer: the former content followed
by the chunks. -/
theorem deliver_eq_append_join (chunks : List String) :
    ∀ body : String, deliver chunks body = body ++ String.join chunks := by
  induction chunks with
  | nil => intro body; rw [deliver_nil, string_join_nil, String.append_empty]
  | cons c cs ih =>
    intro body
    rw [deliver_cons, ih, string_join_cons, String.append_assoc]

/-- Body of the simpler loop: the body it starts with, followed by what its
attempts received. -/
theorem simple_retry_loop_body (w : World) :
    ∀ (n attempt : Nat) (response : HttpResponse),
      (simple_retry_loop w n attempt response).response.body =
        response.body ++ String.join
          ((List.range' attempt (simple_retry_loop w n attempt response).attempts).map
            (received w)) := by
  intro n
  induction n with
  | zero =>
    intro attempt response
    simp [simple_retry_loop, string_join_nil, String.append_empty]
  | succ n ih =>
    intro attempt response
    by_cases h2 : (w.curl_easy_perform attempt).is_2xx = true
    · simp [simple_retry_loop, h2, deliver_eq_append_join, received, string_join_cons,
        string_join_nil, String.append_empty]
    · have h2f := bool_eq_false_of_ne_true h2
      by_cases hlt : attempt < MAX_RETRIES
      · simp only [simple_retry_loop, h2f, hlt, if_true, Bool.false_eq_true, if_false]
        rw [ih]
        simp [List.range'_succ, string_join_cons, deliver_eq_append_join, received,
          String.append_assoc]
      · simp [simple_retry_loop, h2f, hlt, deliver_eq_append_join, received, string_join_cons,
          string_join_nil, String.append_empty]

/-- Backoff calls of the simpler loop: one after each attempt but the last,
with the index of that attempt. -/
theorem simple_retry_loop_backoffs (w : World) :
    ∀ (n attempt : Nat) (response : HttpResponse), n + attempt = MAX_RETRIES + 1 → 1 ≤ n →
      1 ≤ (simple_retry_loop w n attempt response).attempts ∧
      (simple_retry_loop w n attempt response).backoffs =
        List.range' attempt ((simple_retry_loop w n attempt response).attempts - 1) := by
  intro n
  induction n with
  | zero => intro attempt response _ h; omega
  | succ n ih =>
    intro attempt response hsum _
    by_cases h2 : (w.curl_easy_perform attempt).is_2xx = true
    · simp [simple_retry_loop, h2]
    · have h2f := bool_eq_false_of_ne_true h2
      by_cases hlt : attempt < MAX_RETRIES
      · obtain ⟨h1, hb⟩ := ih (attempt + 1)
          { status_code := (w.curl_easy_perform attempt).status,
            body := deliver (w.curl_easy_perform attempt).chunks response.body,
            error_message :=
              if (w.curl_easy_perform attempt).res ≠ CURLcode.CURLE_OK
              then w.curl_easy_strerror (w.curl_easy_perform attempt).res
              else "HTTP " ++ toString (w.curl_easy_perform attempt).status,
            success := response.success } (by omega) (by omega)
        simp only [simple_retry_loop, h2f, hlt, if_true, Bool.false_eq_true, if_false]
        refine ⟨by omega, ?_⟩
        rw [hb]
        obtain ⟨k, hk⟩ := Nat.exists_eq_add_of_le h1
        rw [hk]
        simp [List.range'_succ, Nat.add_comm]
      · simp [simple_retry_loop, h2f, hlt]

/-! ## Termination inside the loop (C21) -/

/-- C21: for every sequence of attempt outcomes `make_request` returns after at
least 1 and at most `MAX_RETRIES + 1 = 4` attempts, through one of the two
return statements inside the loop; the `return response` after the loop is
not reached, because the iteration with index `MAX_RETRIES` always returns. -/
theorem make_request_returns_inside_loop (w : World) (self : HttpClient)
    (url method data : String) (headers : List String) :
    (∃ r, make_request w self url method data headers = .ok r ∧
      1 ≤ r.attempts ∧ r.attempts ≤ MAX_RETRIES + 1 ∧ MAX_RETRIES + 1 = 4 ∧
      perform_count r.events = r.attempts ∧
      (r.exit = ExitPoint.return_success ∨ r.exit = ExitPoint.return_in_catch) ∧
      r.exit ≠ ExitPoint.return_after_loop) ∧
    (∀ st : State, ∃ r', make_request_loop w self url method data headers 1 MAX_RETRIES st =
        .ok r' ∧ r'.attempts = st.attempts + 1 ∧
      (r'.exit = ExitPoint.return_success ∨ r'.exit = ExitPoint.return_in_catch)) := by
  constructor
  · obtain ⟨r, e, hlo, hhi, _, hcase⟩ := loop_result w self url method data headers
      (MAX_RETRIES + 1) 0
      { response := HttpResponse.init, curl := self.curl_, attempts := 0, events := [] }
      (by omega) (by omega)
    have hr : make_request w self url method data headers = .ok r := e
    have hex : r.exit = ExitPoint.return_success ∨ r.exit = ExitPoint.return_in_catch := by
      rcases hcase with ⟨hx, _⟩ | ⟨hx, _⟩
      · exact Or.inl hx
      · exact Or.inr hx
    refine ⟨r, hr, hlo, by simpa using hhi, rfl,
      make_request_attempts_eq_perform_count w self url method data headers r hr, hex, ?_⟩
    rcases hex with hx | hx <;> rw [hx] <;> decide
  · intro st
    obtain ⟨r', e, hlo, hhi, _, hcase⟩ := loop_result w self url method data headers
      1 MAX_RETRIES st (by omega) (by omega)
    refine ⟨r', e, by omega, ?_⟩
    rcases hcase with ⟨hx, _⟩ | ⟨hx, _⟩
    · exact Or.inl hx
    · exact Or.inr hx

/-! ## The classifiers do not change the result (C22) -/

/-- C22: `make_request` returns the response, performs the number of attempts
and makes the backoff calls, hence the sleeps, of the simpler loop that
retries every attempt that is not a 2xx while `attempt < MAX_RETRIES`, a loop
in which `is_retryable_error` and `is_retryable_curl_error` do not occur;
every response with `success = false` comes after exactly `MAX_RETRIES + 1`
attempts. -/
theorem make_request_refines_simple_loop (w : World) (self : HttpClient)
    (url method data : String) (headers : List String) :
    ∃ r, make_request w self url method data headers = .ok r ∧
      r.response = (simple_make_request w).response ∧
      r.attempts = (simple_make_request w).attempts ∧
      backoff_calls r.events = (simple_make_request w).backoffs ∧
      (∀ jitter, sleep_schedule jitter r.events =
        (simple_make_request w).sleep_schedule jitter) ∧
      (r.response.success = false → r.attempts = MAX_RETRIES + 1) := by
  obtain ⟨r, e, _, _, _, hcase⟩ := loop_result w self url method data headers
    (MAX_RETRIES + 1) 0
    { response := HttpResponse.init, curl := self.curl_, attempts := 0, events := [] }
    (by omega) (by omega)
  have hr : make_request w self url method data headers = .ok r := e
  obtain ⟨hresp, hatt⟩ := make_request_eq_simple w self url method data headers r hr
  have hb := make_request_backoff_calls w self url method data headers r hr
  obtain ⟨_, hsb⟩ := simple_retry_loop_backoffs w (MAX_RETRIES + 1) 0 HttpResponse.init
    (by omega) (by omega)
  have hbacks : backoff_calls r.events = (simple_make_request w).backoffs := by
    rw [hb, hatt, List.range_eq_range']
    exact hsb.symm
  refine ⟨r, hr, hresp, hatt, hbacks, ?_, ?_⟩
  · intro jitter
    simp only [sleep_schedule, SimpleRun.sleep_schedule, hbacks]
  · intro hf
    rcases hcase with ⟨_, hs, _⟩ | ⟨_, _, hn, _⟩
    · rw [hs] at hf; cases hf
    · simpa using hn

/-! ## Body of the response (C23) -/

/-- C23: the body of the returned response is the concatenation, in attempt
order, of the body bytes received in every attempt the call performed, the
failed ones included. -/
theorem make_request_body_is_all_received (w : World) (self : HttpClient)
    (url method data : String) (headers : List String) :
    ∃ r, make_request w self url method data headers = .ok r ∧
      perform_count r.events = r.attempts ∧
      r.response.body = all_received w r.attempts := by
  obtain ⟨r, hr, _, _, _⟩ := make_request_returns w self url method data headers
  obtain ⟨hresp, hatt⟩ := make_request_eq_simple w self url method data headers r hr
  refine ⟨r, hr, make_request_attempts_eq_perform_count w self url method data headers r hr, ?_⟩
  rw [hresp, hatt, simple_make_request, simple_retry_loop_body, all_received,
    List.range_eq_range']
  show "" ++ _ = _
  rw [String.empty_append]

/-! ## The sleep schedule performed (C24) -/

/-- C24: the loop makes one backoff call after each attempt that is followed
by another one, with the index of the failed attempt; so the sleeps are none
before attempt 1 (`exponential_backoff(0)` returns without sleeping),
`trunc(1000 * f1)` ms before attempt 2 and `trunc(2000 * f2)` ms before
attempt 3, as far as the call gets, and with factors in [0.5, 1.5) the total
sleep of a call is below 4500 ms. -/
theorem make_request_sleep_schedule (w : World) (self : HttpClient)
    (url method data : String) (headers : List String) (jitter : Nat → Jitter)
    (hj : ∀ k, (jitter k).in_range) :
    ∃ r, make_request w self url method data headers = .ok r ∧
      backoff_calls r.events = List.range (r.attempts - 1) ∧
      (backoff_calls r.events).Nodup ∧
      sleep_schedule jitter r.events =
        ([none, some (apply_jitter 1000 (jitter 1)), some (apply_jitter 2000 (jitter 2))] :
          List (Option Int)).take (r.attempts - 1) ∧
      0 ≤ total_sleep (sleep_schedule jitter r.events) ∧
      total_sleep (sleep_schedule jitter r.events) < 4500 := by
  obtain ⟨r, hr, h1, hmax, _⟩ := make_request_returns w self url method data headers
  have hb := make_request_backoff_calls w self url method data headers r hr
  have hM : MAX_RETRIES = 3 := rfl
  have hb1 := apply_jitter_bounds 500 (by decide) (jitter 1) (hj 1)
  rw [show (2 : Int) * 500 = 1000 from rfl] at hb1
  have hb2 := apply_jitter_bounds 1000 (by decide) (jitter 2) (hj 2)
  rw [show (2 : Int) * 1000 = 2000 from rfl] at hb2
  have hsched : sleep_schedule jitter r.events =
      ([none, some (apply_jitter 1000 (jitter 1)), some (apply_jitter 2000 (jitter 2))] :
        List (Option Int)).take (r.attempts - 1) := by
    obtain ⟨m, hm⟩ : ∃ m, r.attempts - 1 = m := ⟨_, rfl⟩
    have hm3 : m ≤ 3 := by omega
    rw [hm] at hb
    rw [hm]
    interval_cases m
    · simp [sleep_schedule, hb]
    · have hl : List.range 1 = [0] := rfl
      simp [sleep_schedule, hb, hl, List.enum, List.enumFrom, exponential_backoff_zero]
    · have hl : List.range 2 = [0, 1] := rfl
      simp [sleep_schedule, hb, hl, List.enum, List.enumFrom, exponential_backoff_zero,
        exponential_backoff_one_sleep]
    · have hl : List.range 3 = [0, 1, 2] := rfl
      simp [sleep_schedule, hb, hl, List.enum, List.enumFrom, exponential_backoff_zero,
        exponential_backoff_one_sleep, exponential_backoff_two_sleep]
  refine ⟨r, hr, hb, by rw [hb]; exact List.nodup_range _, hsched, ?_, ?_⟩
  · rw [hsched]
    obtain ⟨m, hm⟩ : ∃ m, r.attempts - 1 = m := ⟨_, rfl⟩
    have hm3 : m ≤ 3 := by omega
    rw [hm]
    interval_cases m <;> simp [total_sleep] <;> omega
  · rw [hsched]
    obtain ⟨m, hm⟩ : ∃ m, r.attempts - 1 = m := ⟨_, rfl⟩
    have hm3 : m ≤ 3 := by omega
    rw [hm]
    interval_cases m <;> simp [total_sleep] <;> omega

/-- Instance: three answers 503 and then 200, with the factor 1.0 at every
draw. -/
theorem make_request_sleep_schedule_witness :
    ∃ r, make_request world_503_503_503_200 (HttpClient.init 5)
        "https://httpbin.org/status/503" "GET" "" [] = .ok r ∧
      backoff_calls r.events = List.range (r.attempts - 1) ∧
      (backoff_calls r.events).Nodup ∧
      sleep_schedule jitter_one r.events =
        ([none, some (apply_jitter 1000 (jitter_one 1)),
          some (apply_jitter 2000 (jitter_one 2))] : List (Option Int)).take (r.attempts - 1) ∧
      0 ≤ total_sleep (sleep_schedule jitter_one r.events) ∧
      total_sleep (sleep_schedule jitter_one r.events) < 4500 :=
  make_request_sleep_schedule world_503_503_503_200 (HttpClient.init 5)
    "https://httpbin.org/status/503" "GET" "" [] jitter_one
    (fun _ => show Jitter.in_range { num := 1, den := 1 } by decide)

/-! ## Safe range of the backoff computation (C25) -/

theorem backoff_base_mono (a b : Int) (ha : 1 ≤ a) (hab : a ≤ b) (hb : b ≤ 22) :
    backoff_base a ≤ backoff_base b := by
  rw [(backoff_base_exact a ha (by omega)).1, (backoff_base_exact b (by omega) hb).1]
  have hexp : (a - 1).toNat ≤ (b - 1).toNat := Int.toNat_le_toNat (by omega)
  have hpow : (2 : Int) ^ (a - 1).toNat ≤ 2 ^ (b - 1).toNat :=
    pow_le_pow_right₀ (by decide) hexp
  exact min_le_min (by omega) (le_refl _)

/-- C25: for `1 ≤ attempt ≤ 22` neither the shift nor the product leaves the
32-bit range, so the pre-jitter base is the exact
`min(1000 * 2^(attempt-1), 10000)`; it lies in [1000, 10000], does not
decrease with `attempt` and is 10000 from attempt 5 on.  Every value the retry
loop passes is below `MAX_RETRIES`: it is 0, where `exponential_backoff`
returns before the computation, or lies in this range. -/
theorem backoff_base_safe_range (attempt : Int) (h1 : 1 ≤ attempt) (h22 : attempt ≤ 22)
    (w : World) (self : HttpClient) (url method data : String) (headers : List String) :
    (INITIAL_BACKOFF_MS * 2 ^ (attempt - 1).toNat ≤ 2147483647 ∧
      int_shl 1 (static_cast_int (attempt - 1)) = 2 ^ (attempt - 1).toNat ∧
      int_mul INITIAL_BACKOFF_MS (int_shl 1 (static_cast_int (attempt - 1))) =
        INITIAL_BACKOFF_MS * 2 ^ (attempt - 1).toNat) ∧
    backoff_base attempt = min (1000 * 2 ^ (attempt - 1).toNat) 10000 ∧
    1000 ≤ backoff_base attempt ∧ backoff_base attempt ≤ 10000 ∧
    (∀ later, attempt ≤ later → later ≤ 22 → backoff_base attempt ≤ backoff_base later) ∧
    (5 ≤ attempt → backoff_base attempt = 10000) ∧
    (∃ r, make_request w self url method data headers = .ok r ∧
      ∀ a, a ∈ backoff_calls r.events →
        a < MAX_RETRIES ∧
        (a = 0 → ∀ j, exponential_backoff (a : Int) j = none) ∧
        (a ≠ 0 → 1 ≤ (a : Int) ∧ (a : Int) ≤ 22)) := by
  refine ⟨?_, (backoff_base_exact attempt h1 h22).1, ?_, ?_,
    fun later h2 h3 => backoff_base_mono attempt later h1 h2 h3, ?_, ?_⟩
  · interval_cases attempt <;> decide
  · interval_cases attempt <;> decide
  · interval_cases attempt <;> decide
  · intro h5
    interval_cases attempt <;> decide
  · obtain ⟨r, hr, _, hmax, _⟩ := make_request_returns w self url method data headers
    have hb := make_request_backoff_calls w self url method data headers r hr
    have hM : MAX_RETRIES = 3 := rfl
    refine ⟨r, hr, ?_⟩
    intro a ha
    rw [hb, List.mem_range] at ha
    refine ⟨by omega, ?_, ?_⟩
    · intro h0 j
      subst h0
      rfl
    · intro hne
      omega

/-- Instance: `attempt = 3`, where the base is 4000, and a call with three
answers 503 before a 200. -/
theorem backoff_base_safe_range_witness :
    (INITIAL_BACKOFF_MS * 2 ^ ((3 : Int) - 1).toNat ≤ 2147483647 ∧
      int_shl 1 (static_cast_int (3 - 1)) = 2 ^ ((3 : Int) - 1).toNat ∧
      int_mul INITIAL_BACKOFF_MS (int_shl 1 (static_cast_int (3 - 1))) =
        INITIAL_BACKOFF_MS * 2 ^ ((3 : Int) - 1).toNat) ∧
    backoff_base 3 = min (1000 * 2 ^ ((3 : Int) - 1).toNat) 10000 ∧
    1000 ≤ backoff_base 3 ∧ backoff_base 3 ≤ 10000 ∧
    (∀ later, 3 ≤ later → later ≤ 22 → backoff_base 3 ≤ backoff_base later) ∧
    (5 ≤ (3 : Int) → backoff_base 3 = 10000) ∧
    (∃ r, make_request world_503_503_503_200 (HttpClient.init 5)
        "https://httpbin.org/status/503" "GET" "" [] = .ok r ∧
      ∀ a, a ∈ backoff_calls r.events →
        a < MAX_RETRIES ∧
        (a = 0 → ∀ j, exponential_backoff (a : Int) j = none) ∧
        (a ≠ 0 → 1 ≤ (a : Int) ∧ (a : Int) ≤ 22)) :=
  backoff_base_safe_range 3 (by decide) (by decide) world_503_503_503_200 (HttpClient.init 5)
    "https://httpbin.org/status/503" "GET" "" []

/-! ## Error message of a failed call (C26) -/

theorem string_prefix_length_ne (p q s : String) (h : p.length ≠ q.length) :
    p ++ s ≠ q ++ s := by
  intro he
  have hl := congrArg String.length he
  simp only [String.length_append] at hl
  omega

/-- A failed attempt with index `MAX_RETRIES` leaves the `try` block through
`throw`, and the exception carries `failure_what`. -/
theorem try_block_last_throws (w : World) (self : HttpClient) (url method data : String)
    (headers : List String) (st : State)
    (h : (w.curl_easy_perform MAX_RETRIES).is_2xx = false) :
    ∃ e, (try_block w self url method data headers MAX_RETRIES st).2 = Signal.thrown e ∧
      e.what = failure_what w (w.curl_easy_perform MAX_RETRIES) := by
  have h' := h
  simp only [PerformResult.is_2xx, PerformResult.status] at h'
  by_cases h1 : (w.curl_easy_perform MAX_RETRIES).res = CURLcode.CURLE_OK
  · have h2 : ¬ (200 ≤ static_cast_int (w.curl_easy_perform MAX_RETRIES).http_code ∧
        static_cast_int (w.curl_easy_perform MAX_RETRIES).http_code < 300) := by
      intro hc; simp [h1, hc.1, hc.2] at h'
    simp [try_block, State.emit, h1, h2, PerformResult.status, failure_what, ApiException.mk2]
  · simp [try_block, State.emit, h1, PerformResult.status, failure_what, ApiException.mk1,
      ApiException.mk2]

/-- C26: whenever `make_request` returns `success = false`, it returns from the
handler of the last iteration and `error_message` is the `what()` text of the
`ApiException` the final attempt raised: `"HTTP error: "` followed by the
decimal status for a non-2xx status, `"cURL error: "` followed by the
transport error description for a transport failure; in both cases it differs
from the shorter text stored before the `throw`. -/
theorem make_request_failure_message_is_what (w : World) (self : HttpClient)
    (url method data : String) (headers : List String) :
    ∃ r, make_request w self url method data headers = .ok r ∧
      (r.response.success = false →
        r.exit = ExitPoint.return_in_catch ∧ r.attempts = MAX_RETRIES + 1 ∧
        (∀ st : State, ∃ e,
          (try_block w self url method data headers (r.attempts - 1) st).2 =
            Signal.thrown e ∧ e.what = r.response.error_message) ∧
        ((w.curl_easy_perform (r.attempts - 1)).is_http_failure = true →
          r.response.error_message = "HTTP error: " ++ toString r.response.status_code ∧
          r.response.error_message ≠ "HTTP " ++ toString r.response.status_code) ∧
        ((w.curl_easy_perform (r.attempts - 1)).is_transport_failure = true →
          r.response.error_message =
            "cURL error: " ++ w.curl_easy_strerror (w.curl_easy_perform (r.attempts - 1)).res ∧
          r.response.error_message ≠
            w.curl_easy_strerror (w.curl_easy_perform (r.attempts - 1)).res)) := by
  obtain ⟨r, e, _, _, hst, hcase⟩ := loop_result w self url method data headers
    (MAX_RETRIES + 1) 0
    { response := HttpResponse.init, curl := self.curl_, attempts := 0, events := [] }
    (by omega) (by omega)
  refine ⟨r, e, fun hfalse => ?_⟩
  rcases hcase with ⟨_, hs, _⟩ | ⟨hx, _, hn, h2f, hm⟩
  · rw [hs] at hfalse; cases hfalse
  · have hatt : r.attempts = MAX_RETRIES + 1 := by simpa using hn
    have hidx : r.attempts - 1 = MAX_RETRIES := by omega
    have hst2 : r.response.status_code = (w.curl_easy_perform MAX_RETRIES).status := by
      have hidx2 : 0 + (r.attempts - 0) - 1 = MAX_RETRIES := by omega
      rw [hidx2] at hst
      exact hst
    rw [hidx]
    refine ⟨hx, hatt, ?_, ?_, ?_⟩
    · intro st
      obtain ⟨x, hx1, hx2⟩ := try_block_last_throws w self url method data headers st h2f
      exact ⟨x, hx1, by rw [hx2, hm]⟩
    · intro hh
      have heq : (w.curl_easy_perform MAX_RETRIES).res = CURLcode.CURLE_OK := by
        simp only [PerformResult.is_http_failure, Bool.and_eq_true, decide_eq_true_eq] at hh
        exact hh.1
      have hmsg : r.response.error_message =
          "HTTP error: " ++ toString r.response.status_code := by
        rw [hm, hst2]; simp [failure_what, heq]
      exact ⟨hmsg, by rw [hmsg]; exact string_prefix_length_ne _ _ _ (by decide)⟩
    · intro ht
      have hne : (w.curl_easy_perform MAX_RETRIES).res ≠ CURLcode.CURLE_OK := by
        simpa [PerformResult.is_transport_failure] using ht
      have hmsg : r.response.error_message =
          "cURL error: " ++ w.curl_easy_strerror (w.curl_easy_perform MAX_RETRIES).res := by
        rw [hm]; simp [failure_what, hne]
      refine ⟨hmsg, ?_⟩
      rw [hmsg]
      intro he
      have hl := congrArg String.length he
      simp only [String.length_append] at hl
      have h12 : ("cURL error: " : String).length = 12 := by decide
      omega

/-! ## Exceptions that leave the call (C9) -/

/-- An exception that leaves the loop is the one `std::random_device` threw in
the handler. -/
theorem loop_fallible_error (f : Faults) (w : World) (self : HttpClient)
    (url method data : String) (headers : List String) :
    ∀ (n attempt : Nat) (st : State) (x : Thrown),
      make_request_loop_fallible f w self url method data headers n attempt st = .error x →
      x = Thrown.random_device_error f.random_device_what := by
  intro n
  induction n with
  | zero =>
    intro attempt st x h
    simp [make_request_loop_fallible] at h
  | succ n ih =>
    intro attempt st x h
    rw [make_request_loop_fallible] at h
    rcases hp : try_block_fallible f w self url method data headers attempt st with ⟨st1, sig⟩
    rw [hp] at h
    cases sig with
    | returned => simp at h
    | continued => exact ih (attempt + 1) st1 x h
    | thrown e =>
      simp only at h
      unfold catch_block_fallible at h
      by_cases hm : attempt = MAX_RETRIES
      · simp [hm] at h
      · by_cases ht : exponential_backoff_throws f attempt true = true
        · simp only [hm, ht, if_false, if_true, Except.error.injEq] at h
          exact h.symm
        · simp only [hm, ht, if_false, Bool.false_eq_true] at h
          exact ih (attempt + 1) _ x h

/-- The loop returns a value when `exponential_backoff` does not throw in the
handler, whatever it does in the `try` block. -/
theorem loop_fallible_returns (f : Faults) (w : World) (self : HttpClient)
    (url method data : String) (headers : List String)
    (hf : ∀ a, exponential_backoff_throws f a true = false) :
    ∀ (n attempt : Nat) (st : State),
      ∃ r, make_request_loop_fallible f w self url method data headers n attempt st = .ok r := by
  intro n
  induction n with
  | zero => intro attempt st; exact ⟨_, rfl⟩
  | succ n ih =>
    intro attempt st
    rw [make_request_loop_fallible]
    rcases hp : try_block_fallible f w self url method data headers attempt st with ⟨st1, sig⟩
    cases sig with
    | returned => exact ⟨_, rfl⟩
    | continued => exact ih (attempt + 1) st1
    | thrown e =>
      simp only
      unfold catch_block_fallible
      by_cases hm : attempt = MAX_RETRIES
      · simp only [hm, if_true]
        exact ⟨_, rfl⟩
      · simp only [hm, hf attempt, if_false, Bool.false_eq_true]
        exact ih (attempt + 1) _

/-- When the random device never fails, the loop with the failure followed
returns what the loop of `make_request` returns. -/
theorem loop_fallible_eq (f : Faults) (w : World) (self : HttpClient)
    (url method data : String) (headers : List String)
    (hf : ∀ a h, f.random_device_fails a h = false) :
    ∀ (n attempt : Nat) (st : State) (r : Run),
      make_request_loop w self url method data headers n attempt st = .ok r →
      make_request_loop_fallible f w self url method data headers n attempt st = .ok r := by
  have hno : ∀ a h, exponential_backoff_throws f a h = false := by
    intro a h; simp [exponential_backoff_throws, hf]
  intro n
  induction n with
  | zero =>
    intro attempt st r h
    simpa [make_request_loop, make_request_loop_fallible] using h
  | succ n ih =>
    intro attempt st r h
    rw [make_request_loop] at h
    rw [make_request_loop_fallible, try_block_fallible]
    rcases hp : try_block w self url method data headers attempt st with ⟨st1, sig⟩
    rw [hp] at h
    cases sig with
    | returned => simpa using h
    | continued =>
      simp only [hno, Bool.false_eq_true, if_false]
      exact ih (attempt + 1) st1 r h
    | thrown e =>
      simp only at h ⊢
      unfold catch_block at h
      unfold catch_block_fallible
      by_cases hm : attempt = MAX_RETRIES
      · simp only [hm, if_true] at h ⊢
        simpa [Thrown.what] using h
      · simp only [hm, if_false, hno, Bool.false_eq_true] at h ⊢
        exact ih (attempt + 1) _ r h

/-- What does hold of the exceptions: no `ApiException` ever leaves
`make_request`, every one thrown in the loop is caught in the loop; for every
sequence of attempt outcomes the call returns a value whenever
`exponential_backoff` does not throw in the handler; the only exception that
can leave is the one of `std::random_device`; and without that failure the
call returns what `make_request` returns. -/
theorem make_request_fallible_no_api_exception_leaves (f : Faults) (w : World)
    (self : HttpClient) (url method data : String) (headers : List String) :
    (∀ e : ApiException,
      make_request_fallible f w self url method data headers ≠
        .error (Thrown.api_exception e)) ∧
    (∀ x, make_request_fallible f w self url method data headers = .error x →
      x = Thrown.random_device_error f.random_device_what) ∧
    ((∀ a, exponential_backoff_throws f a true = false) →
      ∃ r, make_request_fallible f w self url method data headers = .ok r) ∧
    ((∀ a h, f.random_device_fails a h = false) →
      ∃ r, make_request_fallible f w self url method data headers = .ok r ∧
        make_request w self url method data headers = .ok r) := by
  refine ⟨?_, ?_, ?_, ?_⟩
  · intro e he
    have := loop_fallible_error f w self url method data headers _ _ _ _ he
    cases this
  · intro x hx
    exact loop_fallible_error f w self url method data headers _ _ _ _ hx
  · intro hf
    exact loop_fallible_returns f w self url method data headers hf _ _ _
  · intro hf
    obtain ⟨r, hr, _⟩ := make_request_returns w self url method data headers
    exact ⟨r, loop_fallible_eq f w self url method data headers hf _ _ _ r hr, hr⟩

end CppInterviewPrep
